import Mathlib

/-!
Verification of the devdocs-mcp documentation router (Rust) against its
natural-language specification.

The development shallowly embeds the tool dispatcher, the five provider
clients and the cache layer of `src/tools/docs/` into Lean:

* pure helper functions of the Rust code become Lean functions;
* the shared HTTP client is an oracle `Env.fetch : url → userAgent →
  FetchResult`; per the spec's interface section a fetch yields a status
  code together with the whole body, or a transport error (a failure while
  reading the body of an already-received response is folded into the
  transport-error case);
* `html2md::parse_html` and `serde_json::from_str` are the oracles
  `Env.parseHtml` and `Env.parseJson` (the spec declares both external);
* the per-client caches (`HashMap<String, String>` behind a mutex) are
  association lists threaded through each operation; `set` conses the new
  binding and `get` returns the newest one, which is observationally the
  map's insert/get;
* each provider operation returns its `Result<String, ToolError>` together
  with the cache it leaves behind.

Statuses are `Nat` and the `Display` of a status is its decimal numeral
(the canonical reason phrase of `reqwest::StatusCode` is not modelled;
no claim depends on it).  Byte indices of `str` slicing are modelled as
character indices.
-/

namespace DevDocsMcp

/-- The `mcp_core::ToolError` variants used by the router. -/
inductive ToolError where
  | invalidParameters (msg : String)
  | executionError (msg : String)
  | notFound (msg : String)
deriving DecidableEq, Repr

/-- Outcome of one HTTP GET: a status code with the response body, or a
transport failure carrying the client's error message. -/
inductive FetchResult where
  | response (status : Nat) (body : String)
  | transportError (msg : String)
deriving DecidableEq, Repr

/-- `reqwest::StatusCode::is_success`: the 2xx range. -/
def isSuccess (status : Nat) : Bool :=
  decide (200 ≤ status) && decide (status < 300)

/-- A JSON tree, as produced by `serde_json`. -/
inductive Json where
  | null
  | bool (b : Bool)
  | num (n : Int)
  | str (s : String)
  | arr (elems : List Json)
  | obj (fields : List (String × Json))

/-- First binding of a key in a JSON object's field list
(`serde_json::Value::get`). -/
def findField : List (String × Json) → String → Option Json
  | [], _ => none
  | (k', v) :: rest, k => if k' = k then some v else findField rest k

/-- `Value::get(key)`: field of an object, `None` on any other variant. -/
def Json.get : Json → String → Option Json
  | .obj fields, k => findField fields k
  | _, _ => none

/-- `Value::as_str`. -/
def Json.asStr : Json → Option String
  | .str s => some s
  | _ => none

/-- `Value::as_array`. -/
def Json.asArr : Json → Option (List Json)
  | .arr elems => some elems
  | _ => none

/-- `Value::as_object` (fields in document order). -/
def Json.asObj : Json → Option (List (String × Json))
  | .obj fields => some fields
  | _ => none

/-- `Value::as_u64`: an integer representable as a `u64`. -/
def Json.asU64 : Json → Option Nat
  | .num n => if 0 ≤ n ∧ n < 2 ^ 64 then some n.toNat else none
  | _ => none

/-- `value.get(key).and_then(as_str)`. -/
def Json.getStr (j : Json) (k : String) : Option String :=
  (j.get k).bind Json.asStr

/-- The external world of one call: the HTTP client and the two
normalization primitives, all declared external collaborators by the
spec. -/
structure Env where
  fetch : String → String → FetchResult
  parseHtml : String → String
  parseJson : String → Except String Json

/-- A provider cache: `HashMap<String, String>` modelled as an association
list where `set` conses and `get` takes the newest binding. -/
abbrev Cache := List (String × String)

/-- The empty cache a client starts with. -/
def Cache.empty : Cache := []

/-- `DocCache::get` / the clients' `get_cache`. -/
def Cache.get : Cache → String → Option String
  | [], _ => none
  | (k', v) :: rest, k => if k' = k then some v else Cache.get rest k

/-- `DocCache::set` / the clients' `set_cache` (`HashMap::insert`,
an overwriting write). -/
def Cache.set (c : Cache) (k v : String) : Cache := (k, v) :: c

/-! ### String helpers mirroring the Rust `str` methods used -/

/-- `haystack_chars` contains `needle` as a contiguous run
(Rust `str::contains`). -/
def charsContains (needle : List Char) : List Char → Bool
  | [] => needle.isEmpty
  | c :: rest => needle.isPrefixOf (c :: rest) || charsContains needle rest

/-- Rust `str::contains(substring)`. -/
def strContains (haystack needle : String) : Bool :=
  charsContains needle.data haystack.data

/-- Drop leading whitespace (the front half of Rust `str::trim`; the
trailing half cannot affect the first remaining character). -/
def trimLeadingWs : List Char → List Char
  | [] => []
  | c :: rest => if c.isWhitespace then trimLeadingWs rest else c :: rest

/-- `body.trim().starts_with('{')` from `search_crates`. -/
def trimmedStartsWithBrace (s : String) : Bool :=
  match trimLeadingWs s.data with
  | '{' :: _ => true
  | _ => false

/-- Rust `str::split("::")` on a character list: cut at every
non-overlapping occurrence of `::`, scanning left to right.  `acc` holds
the current segment reversed. -/
def splitDoubleColon : List Char → List Char → List (List Char)
  | [], acc => [acc.reverse]
  | [c], acc => [(c :: acc).reverse]
  | c1 :: c2 :: rest, acc =>
    if c1 = ':' ∧ c2 = ':' then acc.reverse :: splitDoubleColon rest []
    else splitDoubleColon (c2 :: rest) (c1 :: acc)

/-- `item_path.split("::")`, as a list of strings. -/
def itemPathParts (p : String) : List String :=
  (splitDoubleColon p.data []).map fun cs => String.mk cs

theorem splitDoubleColon_ne_nil (l acc : List Char) :
    splitDoubleColon l acc ≠ [] := by
  induction l, acc using splitDoubleColon.induct <;>
    simp_all [splitDoubleColon] <;> split <;> simp_all

theorem itemPathParts_ne_nil (p : String) : itemPathParts p ≠ [] := by
  simp [itemPathParts, splitDoubleColon_ne_nil]

/-! ### docs.rs provider (`DocRouter`'s own methods, `docs.rs`)

`DocRouter.cache` is a single `DocCache` shared by `lookup_crate` and
`lookup_item` (`search_crates` never touches it). -/

/-- The `User-Agent` sent by `DocRouter`'s own fetches. -/
def docsUserAgent : String :=
  "CodeNav/0.1.0 (https://github.com/HikaruEgashira/codenav-mcp)"

/-- Cache key of `lookup_crate`: `{name}:{ver}` or bare `{name}`. -/
def lookupCrateKey (crateName : String) (version : Option String) : String :=
  match version with
  | some ver => crateName ++ ":" ++ ver
  | none => crateName

/-- URL of `lookup_crate`. -/
def lookupCrateUrl (crateName : String) (version : Option String) : String :=
  match version with
  | some ver => "https://docs.rs/crate/" ++ crateName ++ "/" ++ ver ++ "/"
  | none => "https://docs.rs/crate/" ++ crateName ++ "/"

/-- `DocRouter::lookup_crate`. -/
def lookupCrate (env : Env) (cache : Cache) (crateName : String)
    (version : Option String) : Except ToolError String × Cache :=
  let cacheKey := lookupCrateKey crateName version
  match cache.get cacheKey with
  | some doc => (.ok doc, cache)
  | none =>
    match env.fetch (lookupCrateUrl crateName version) docsUserAgent with
    | .transportError e =>
        (.error (.executionError ("Failed to fetch documentation: " ++ e)), cache)
    | .response status body =>
      if isSuccess status then
        let markdownBody := env.parseHtml body
        (.ok markdownBody, cache.set cacheKey markdownBody)
      else
        (.error (.executionError
          ("Failed to fetch documentation. Status: " ++ toString status)), cache)

/-- `limit.unwrap_or(10).min(100)`, the clamp every `search_*` applies. -/
def effectiveLimit (limit : Option Nat) : Nat :=
  min (limit.getD 10) 100

/-- URL of `search_crates` (the clamp already applied). -/
def searchCratesUrl (query : String) (limit : Nat) : String :=
  "https://crates.io/api/v1/crates?q=" ++ query ++ "&per_page=" ++ toString limit

/-- `DocRouter::search_crates`.  Note: unlike every other operation it
neither reads nor writes any cache. -/
def searchCrates (env : Env) (cache : Cache) (query : String)
    (limit : Option Nat) : Except ToolError String × Cache :=
  let lim := effectiveLimit limit
  match env.fetch (searchCratesUrl query lim) docsUserAgent with
  | .transportError e =>
      (.error (.executionError ("Failed to search crates.io: " ++ e)), cache)
  | .response status body =>
    if isSuccess status then
      if trimmedStartsWithBrace body then (.ok body, cache)
      else (.ok (env.parseHtml body), cache)
    else
      (.error (.executionError
        ("Failed to search crates.io. Status: " ++ toString status)), cache)

/-- Strip a leading `{crate_name}::` from the item path
(`lookup_item`'s first step). -/
def stripCratePrefix (crateName itemPath : String) : String :=
  let cratePrefix := crateName ++ "::"
  if cratePrefix.data.isPrefixOf itemPath.data then
    String.mk (itemPath.data.drop cratePrefix.data.length)
  else itemPath

/-- Cache key of `lookup_item` (computed on the stripped path):
`{crate}:{ver}:{path}` or `{crate}:{path}`. -/
def lookupItemKey (crateName strippedPath : String)
    (version : Option String) : String :=
  match version with
  | some ver => crateName ++ ":" ++ ver ++ ":" ++ strippedPath
  | none => crateName ++ ":" ++ strippedPath

/-- Last path segment, `parts.last().unwrap()`. -/
def itemNameOf (strippedPath : String) : String :=
  ((itemPathParts strippedPath).getLast?).getD ""

/-- `parts[..len-1].join("/")` when there is more than one segment. -/
def modulePathOf (strippedPath : String) : String :=
  let parts := itemPathParts strippedPath
  if parts.length > 1 then String.intercalate "/" parts.dropLast else ""

/-- The fixed, ordered fallback kinds of `lookup_item`. -/
def itemTypes : List String := ["struct", "enum", "trait", "fn", "macro"]

/-- docs.rs URL of one candidate kind for an item. -/
def itemUrl (crateName : String) (version : Option String)
    (modulePath itemType itemName : String) : String :=
  match version with
  | some ver =>
    if modulePath = "" then
      "https://docs.rs/" ++ crateName ++ "/" ++ ver ++ "/" ++ crateName ++ "/"
        ++ itemType ++ "." ++ itemName ++ ".html"
    else
      "https://docs.rs/" ++ crateName ++ "/" ++ ver ++ "/" ++ crateName ++ "/"
        ++ modulePath ++ "/" ++ itemType ++ "." ++ itemName ++ ".html"
  | none =>
    if modulePath = "" then
      "https://docs.rs/" ++ crateName ++ "/latest/" ++ crateName ++ "/"
        ++ itemType ++ "." ++ itemName ++ ".html"
    else
      "https://docs.rs/" ++ crateName ++ "/latest/" ++ crateName ++ "/"
        ++ modulePath ++ "/" ++ itemType ++ "." ++ itemName ++ ".html"

/-- The candidate URLs of `lookup_item`, one per kind, in declared order. -/
def candidateUrls (crateName : String) (version : Option String)
    (strippedPath : String) : List String :=
  itemTypes.map fun t =>
    itemUrl crateName version (modulePathOf strippedPath) t (itemNameOf strippedPath)

/-- The `last_error` recorded for one failed candidate. -/
def attemptErrorMsg : FetchResult → String
  | .response s _ => "Status code: " ++ toString s
  | .transportError e => e

/-- A candidate attempt that does not return an HTTP success. -/
def attemptFails (env : Env) (url : String) : Bool :=
  match env.fetch url docsUserAgent with
  | .response s _ => !(isSuccess s)
  | .transportError _ => true

/-- The `for item_type in item_types` loop of `lookup_item`: try each
candidate URL in order, return the first success's normalized body, else
the aggregate error built from `last_error`.  Also returns the list of
URLs actually fetched. -/
def lookupItemLoop (env : Env) (crateName : String) (version : Option String)
    (modulePath itemName : String) :
    List String → Option String → Except ToolError String × List String
  | [], lastError =>
    (.error (.executionError
      ("Failed to fetch item documentation. No matching item found. Last error: "
        ++ lastError.getD "Unknown error")), [])
  | itemType :: rest, _lastError =>
    let url := itemUrl crateName version modulePath itemType itemName
    match env.fetch url docsUserAgent with
    | .transportError e =>
      let out := lookupItemLoop env crateName version modulePath itemName rest (some e)
      (out.1, url :: out.2)
    | .response status body =>
      if isSuccess status then (.ok (env.parseHtml body), [url])
      else
        let out := lookupItemLoop env crateName version modulePath itemName rest
          (some ("Status code: " ++ toString status))
        (out.1, url :: out.2)

instance {ε α : Type} [DecidableEq ε] [DecidableEq α] :
    DecidableEq (Except ε α) := fun x y =>
  match x, y with
  | .error a, .error b => decidable_of_iff (a = b) (by simp)
  | .ok a, .ok b => decidable_of_iff (a = b) (by simp)
  | .error _, .ok _ => isFalse (by simp)
  | .ok _, .error _ => isFalse (by simp)

/-- Outcome of `lookup_item`: the result, the cache left behind, and the
trace of candidate URLs fetched. -/
structure ItemOut where
  result : Except ToolError String
  cache : Cache
  attempted : List String
deriving DecidableEq

/-- `DocRouter::lookup_item`. -/
def lookupItem (env : Env) (cache : Cache) (crateName itemPathRaw : String)
    (version : Option String) : ItemOut :=
  let itemPath := stripCratePrefix crateName itemPathRaw
  let cacheKey := lookupItemKey crateName itemPath version
  match cache.get cacheKey with
  | some doc => ⟨.ok doc, cache, []⟩
  | none =>
    if (itemPathParts itemPath).isEmpty then
      ⟨.error (.invalidParameters
        "Invalid item path. Expected format: module::path::ItemName"), cache, []⟩
    else
      let out := lookupItemLoop env crateName version (modulePathOf itemPath)
        (itemNameOf itemPath) itemTypes none
      match out.1 with
      | .ok md => ⟨.ok md, cache.set cacheKey md, out.2⟩
      | .error e => ⟨.error e, cache, out.2⟩

/-! ### DevDocs.io client (`devdocs.rs`) -/

/-- The `User-Agent` of the DevDocs, npm and PyPI clients. -/
def mcpUserAgent : String := "CodeNav-MCP/0.1.0"

/-- `DevDocsClient::list_documentations`. -/
def devdocsListDocumentations (env : Env) (cache : Cache) :
    Except ToolError String × Cache :=
  let cacheKey := "devdocs:list"
  match cache.get cacheKey with
  | some cached => (.ok cached, cache)
  | none =>
    match env.fetch "https://devdocs.io/docs.json" mcpUserAgent with
    | .transportError e =>
        (.error (.executionError ("Failed to fetch DevDocs list: " ++ e)), cache)
    | .response status body =>
      if isSuccess status then (.ok body, cache.set cacheKey body)
      else
        (.error (.executionError
          ("Failed to fetch DevDocs list. Status: " ++ toString status)), cache)

/-- Cache key of `get_documentation`. -/
def devdocsGetKey (slug : String) (entry : Option String) : String :=
  match entry with
  | some e => "devdocs:" ++ slug ++ ":" ++ e
  | none => "devdocs:" ++ slug

/-- URL of `get_documentation`. -/
def devdocsGetUrl (slug : String) (entry : Option String) : String :=
  match entry with
  | some entryPath => "https://devdocs.io/" ++ slug ++ "/" ++ entryPath
  | none => "https://devdocs.io/" ++ slug

/-- `DevDocsClient::get_documentation`. -/
def devdocsGetDocumentation (env : Env) (cache : Cache) (slug : String)
    (entry : Option String) : Except ToolError String × Cache :=
  let cacheKey := devdocsGetKey slug entry
  match cache.get cacheKey with
  | some cached => (.ok cached, cache)
  | none =>
    match env.fetch (devdocsGetUrl slug entry) mcpUserAgent with
    | .transportError e =>
        (.error (.executionError
          ("Failed to fetch DevDocs documentation: " ++ e)), cache)
    | .response status body =>
      if isSuccess status then
        let md := env.parseHtml body
        (.ok md, cache.set cacheKey md)
      else
        (.error (.executionError
          ("Failed to fetch DevDocs documentation. Status: " ++ toString status)),
         cache)

/-- Cache key of `search_documentation`. -/
def devdocsSearchKey (slug query : String) : String :=
  "devdocs:search:" ++ slug ++ ":" ++ query

/-- `DevDocsClient::search_documentation`. -/
def devdocsSearchDocumentation (env : Env) (cache : Cache)
    (slug query : String) : Except ToolError String × Cache :=
  let cacheKey := devdocsSearchKey slug query
  match cache.get cacheKey with
  | some cached => (.ok cached, cache)
  | none =>
    match env.fetch ("https://devdocs.io/" ++ slug ++ "/?q=" ++ query)
        mcpUserAgent with
    | .transportError e =>
        (.error (.executionError ("Failed to search DevDocs: " ++ e)), cache)
    | .response status body =>
      if isSuccess status then
        let md := env.parseHtml body
        (.ok md, cache.set cacheKey md)
      else
        (.error (.executionError
          ("Failed to search DevDocs. Status: " ++ toString status)), cache)

/-! ### npm client (`npm.rs`) -/

/-- Cache key of `NpmClient::lookup_package`. -/
def npmLookupKey (packageName : String) (version : Option String) : String :=
  match version with
  | some ver => "npm:" ++ packageName ++ ":" ++ ver
  | none => "npm:" ++ packageName

/-- URL of `NpmClient::lookup_package`. -/
def npmLookupUrl (packageName : String) (version : Option String) : String :=
  match version with
  | some ver => "https://registry.npmjs.org/" ++ packageName ++ "/" ++ ver
  | none => "https://registry.npmjs.org/" ++ packageName

/-- The keywords loop: comma-separate the string elements, the comma
decided by the enumerate index. -/
def npmKeywordsFrom (i : Nat) : List Json → String
  | [] => ""
  | k :: rest =>
    (match k.asStr with
     | some s => (if i > 0 then ", " else "") ++ s
     | none => "") ++ npmKeywordsFrom (i + 1) rest

/-- One `- **name**: version` dependency line per string-valued field. -/
def depLines (fields : List (String × Json)) : String :=
  String.join (fields.map fun f =>
    match f.2.asStr with
    | some ver => "- **" ++ f.1 ++ "**: " ++ ver ++ "\n"
    | none => "")

/-- The markdown `lookup_package` renders from the registry JSON. -/
def npmFormatPackage (packageName : String) (j : Json) : String :=
  "# " ++ packageName ++ "\n\n"
  ++ (match j.getStr "version" with
      | some v => "**Version:** " ++ v ++ "\n\n"
      | none => "")
  ++ (match j.getStr "description" with
      | some d => d ++ "\n\n"
      | none => "")
  ++ (match (j.get "keywords").bind Json.asArr with
      | some ks => "**Keywords:** " ++ npmKeywordsFrom 0 ks ++ "\n\n"
      | none => "")
  ++ (match j.getStr "homepage" with
      | some h => "**Homepage:** " ++ h ++ "\n\n"
      | none => "")
  ++ (match ((j.get "repository").bind (fun r => r.get "url")).bind Json.asStr with
      | some r => "**Repository:** " ++ r ++ "\n\n"
      | none => "")
  ++ (match j.getStr "license" with
      | some l => "**License:** " ++ l ++ "\n\n"
      | none => "")
  ++ (match (j.get "dependencies").bind Json.asObj with
      | some deps => "## Dependencies\n\n" ++ depLines deps ++ "\n"
      | none => "")
  ++ (match (j.get "devDependencies").bind Json.asObj with
      | some deps => "## Dev Dependencies\n\n" ++ depLines deps ++ "\n"
      | none => "")
  ++ (match j.getStr "readme" with
      | some readme => "## Documentation\n\n" ++ readme
      | none => "")

/-- `NpmClient::lookup_package`. -/
def npmLookupPackage (env : Env) (cache : Cache) (packageName : String)
    (version : Option String) : Except ToolError String × Cache :=
  let cacheKey := npmLookupKey packageName version
  match cache.get cacheKey with
  | some cached => (.ok cached, cache)
  | none =>
    match env.fetch (npmLookupUrl packageName version) mcpUserAgent with
    | .transportError e =>
        (.error (.executionError ("Failed to fetch npm package: " ++ e)), cache)
    | .response status body =>
      if isSuccess status then
        match env.parseJson body with
        | .error e =>
            (.error (.executionError ("Failed to parse JSON: " ++ e)), cache)
        | .ok parsed =>
          let markdown := npmFormatPackage packageName parsed
          (.ok markdown, cache.set cacheKey markdown)
      else
        (.error (.executionError
          ("Failed to fetch npm package. Status: " ++ toString status)), cache)

/-- Cache key of `NpmClient::search_packages` (clamp already applied). -/
def npmSearchKey (query : String) (limit : Option Nat) : String :=
  "npm:search:" ++ query ++ ":" ++ toString (effectiveLimit limit)

/-- URL of `NpmClient::search_packages` (clamp already applied). -/
def npmSearchUrl (query : String) (limit : Option Nat) : String :=
  "https://registry.npmjs.org/-/v1/search?text=" ++ query ++ "&size="
    ++ toString (effectiveLimit limit)

/-- One rendered npm search entry; an object without a `package` record
contributes nothing (but still consumes its enumerate index). -/
def npmEntryText (i : Nat) (pkg : Json) : String :=
  match pkg.get "package" with
  | none => ""
  | some info =>
    let name := (info.getStr "name").getD "Unknown"
    let version := (info.getStr "version").getD "Unknown"
    let description := (info.getStr "description").getD "No description"
    "## " ++ toString (i + 1) ++ ". " ++ name ++ " (v" ++ version ++ ")\n\n"
      ++ description ++ "\n\n"
      ++ (match info.get "links" with
          | none => ""
          | some links =>
            (match links.getStr "npm" with
             | some n => "- [NPM](" ++ n ++ ")\n"
             | none => "")
            ++ (match links.getStr "homepage" with
                | some h => "- [Homepage](" ++ h ++ ")\n"
                | none => "")
            ++ (match links.getStr "repository" with
                | some r => "- [Repository](" ++ r ++ ")\n"
                | none => "")
            ++ "\n")

/-- The `for (i, pkg) in list.iter().enumerate()` rendering loop. -/
def entriesFrom (f : Nat → Json → String) (i : Nat) : List Json → List String
  | [] => []
  | pkg :: rest => f i pkg :: entriesFrom f (i + 1) rest

/-- The full markdown `search_packages` renders from the search JSON. -/
def npmSearchMarkdown (query : String) (j : Json) : String :=
  "# NPM Search Results for '" ++ query ++ "'\n\n"
    ++ (match (j.get "objects").bind Json.asArr with
        | some objects => String.join (entriesFrom npmEntryText 0 objects)
        | none => "No packages found.\n")

/-- `NpmClient::search_packages`. -/
def npmSearchPackages (env : Env) (cache : Cache) (query : String)
    (limit : Option Nat) : Except ToolError String × Cache :=
  let cacheKey := npmSearchKey query limit
  match cache.get cacheKey with
  | some cached => (.ok cached, cache)
  | none =>
    match env.fetch (npmSearchUrl query limit) mcpUserAgent with
    | .transportError e =>
        (.error (.executionError ("Failed to search npm packages: " ++ e)), cache)
    | .response status body =>
      if isSuccess status then
        match env.parseJson body with
        | .error e =>
            (.error (.executionError ("Failed to parse JSON: " ++ e)), cache)
        | .ok parsed =>
          let markdown := npmSearchMarkdown query parsed
          (.ok markdown, cache.set cacheKey markdown)
      else
        (.error (.executionError
          ("Failed to search npm packages. Status: " ++ toString status)), cache)

/-! ### PyPI client (`pypi.rs`) -/

/-- Cache key of `PyPIClient::lookup_package`. -/
def pypiLookupKey (packageName : String) (version : Option String) : String :=
  match version with
  | some ver => "pypi:" ++ packageName ++ ":" ++ ver
  | none => "pypi:" ++ packageName

/-- URL of `PyPIClient::lookup_package`. -/
def pypiLookupUrl (packageName : String) (version : Option String) : String :=
  match version with
  | some ver => "https://pypi.org/pypi/" ++ packageName ++ "/" ++ ver ++ "/json"
  | none => "https://pypi.org/pypi/" ++ packageName ++ "/json"

/-- One `- {text}` bullet per string element of a JSON array. -/
def bulletLines (elems : List Json) : String :=
  String.join (elems.map fun e =>
    match e.asStr with
    | some s => "- " ++ s ++ "\n"
    | none => "")

/-- One `- {name}: {url}` line per string-valued field of an object. -/
def urlLines (fields : List (String × Json)) : String :=
  String.join (fields.map fun f =>
    match f.2.asStr with
    | some u => "- " ++ f.1 ++ ": " ++ u ++ "\n"
    | none => "")

/-- The `description` section with its content-type dispatch
(markdown kept, HTML normalized, anything else fenced as plain text). -/
def pypiDescriptionSection (env : Env) (info : Json) : String :=
  match info.getStr "description" with
  | none => ""
  | some description =>
    "## Description\n\n"
      ++ (if (match info.getStr "description_content_type" with
              | some t => strContains t "markdown" || strContains t "md"
              | none => false) then
            description
          else if (match info.getStr "description_content_type" with
                   | some t => strContains t "text/html" || strContains t "html"
                   | none => false) then
            env.parseHtml description
          else
            "```\n" ++ description ++ "\n```\n")

/-- The trailing documentation-link section (second `if let Some(info)`
block of `lookup_package`). -/
def pypiDocsLinkSection (j : Json) : String :=
  match j.get "info" with
  | none => ""
  | some info =>
    match ((info.get "project_urls").bind (fun u => u.get "Documentation")).bind
        Json.asStr with
    | some docsUrl =>
        "\n## Documentation\n\nFor full documentation, visit: " ++ docsUrl ++ "\n\n"
    | none =>
      match info.getStr "documentation_url" with
      | some docsUrl =>
          "\n## Documentation\n\nFor full documentation, visit: " ++ docsUrl ++ "\n\n"
      | none => ""

/-- The markdown `PyPIClient::lookup_package` renders from the JSON. -/
def pypiFormatPackage (env : Env) (packageName : String) (j : Json) : String :=
  "# " ++ packageName ++ "\n\n"
  ++ (match j.get "info" with
      | none => ""
      | some info =>
        (match info.getStr "version" with
         | some v => "**Version:** " ++ v ++ "\n\n"
         | none => "")
        ++ (match info.getStr "summary" with
            | some s => s ++ "\n\n"
            | none => "")
        ++ (match info.getStr "author" with
            | some author =>
              (match info.getStr "author_email" with
               | some email =>
                   "**Author:** " ++ author ++ " (" ++ email ++ ")\n\n"
               | none => "**Author:** " ++ author ++ "\n\n")
            | none => "")
        ++ (match info.getStr "home_page" with
            | some h => "**Homepage:** " ++ h ++ "\n\n"
            | none => "")
        ++ (match info.getStr "license" with
            | some l => "**License:** " ++ l ++ "\n\n"
            | none => "")
        ++ (match (info.get "classifiers").bind Json.asArr with
            | some cs => "**Classifiers:**\n\n" ++ bulletLines cs ++ "\n"
            | none => "")
        ++ (match (info.get "project_urls").bind Json.asObj with
            | some urls => "**Project Links:**\n\n" ++ urlLines urls ++ "\n"
            | none => "")
        ++ pypiDescriptionSection env info
        ++ (match (info.get "requires_dist").bind Json.asArr with
            | some reqs => "\n## Requirements\n\n" ++ bulletLines reqs ++ "\n"
            | none => ""))
  ++ pypiDocsLinkSection j

/-- `PyPIClient::lookup_package`. -/
def pypiLookupPackage (env : Env) (cache : Cache) (packageName : String)
    (version : Option String) : Except ToolError String × Cache :=
  let cacheKey := pypiLookupKey packageName version
  match cache.get cacheKey with
  | some cached => (.ok cached, cache)
  | none =>
    match env.fetch (pypiLookupUrl packageName version) mcpUserAgent with
    | .transportError e =>
        (.error (.executionError ("Failed to fetch PyPI package: " ++ e)), cache)
    | .response status body =>
      if isSuccess status then
        match env.parseJson body with
        | .error e =>
            (.error (.executionError ("Failed to parse JSON: " ++ e)), cache)
        | .ok parsed =>
          let markdown := pypiFormatPackage env packageName parsed
          (.ok markdown, cache.set cacheKey markdown)
      else
        (.error (.executionError
          ("Failed to fetch PyPI package. Status: " ++ toString status)), cache)

/-- Cache key of `PyPIClient::search_packages` (clamp already applied);
`scrape_search_results` recomputes the identical key. -/
def pypiSearchKey (query : String) (limit : Option Nat) : String :=
  "pypi:search:" ++ query ++ ":" ++ toString (effectiveLimit limit)

/-- One rendered PyPI search entry. -/
def pypiEntryText (i : Nat) (pkg : Json) : String :=
  let name := (pkg.getStr "name").getD "Unknown"
  let version := (pkg.getStr "version").getD "Unknown"
  let description := (pkg.getStr "description").getD "No description"
  "## " ++ toString (i + 1) ++ ". " ++ name ++ " (v" ++ version ++ ")\n\n"
    ++ description ++ "\n\n"
    ++ "- [PyPI Page](https://pypi.org/project/" ++ name ++ ")\n\n"

/-- The markdown the PyPI JSON search path renders:
`results.iter().enumerate().take(limit)`, i.e. only the first `limit`
result objects produce entries. -/
def pypiSearchMarkdown (query : String) (limit : Nat) (j : Json) : String :=
  "# PyPI Search Results for '" ++ query ++ "'\n\n"
    ++ (match (j.get "results").bind Json.asArr with
        | some results =>
            String.join (entriesFrom pypiEntryText 0 (results.take limit))
        | none => "No packages found.\n")

/-- `PyPIClient::scrape_search_results`, the HTML fallback (its `limit`
argument is always `Some` of the already-clamped limit). -/
def pypiScrapeSearchResults (env : Env) (cache : Cache) (query : String)
    (limit : Option Nat) : Except ToolError String × Cache :=
  let lim := effectiveLimit limit
  let cacheKey := "pypi:search:" ++ query ++ ":" ++ toString lim
  match env.fetch ("https://pypi.org/search/?q=" ++ query) mcpUserAgent with
  | .transportError e =>
      (.error (.executionError ("Failed to search PyPI packages: " ++ e)), cache)
  | .response status body =>
    if isSuccess status then
      let markdown := env.parseHtml body
      (.ok markdown, cache.set cacheKey markdown)
    else
      (.error (.executionError
        ("Failed to search PyPI packages. Status: " ++ toString status)), cache)

/-- `PyPIClient::search_packages`: JSON endpoint first, falling back to
HTML scraping when the endpoint fails or its body is not JSON. -/
def pypiSearchPackages (env : Env) (cache : Cache) (query : String)
    (limit : Option Nat) : Except ToolError String × Cache :=
  let lim := effectiveLimit limit
  let cacheKey := pypiSearchKey query limit
  match cache.get cacheKey with
  | some cached => (.ok cached, cache)
  | none =>
    match env.fetch ("https://pypi.org/search/?q=" ++ query ++ "&format=json")
        mcpUserAgent with
    | .transportError e =>
        (.error (.executionError ("Failed to search PyPI packages: " ++ e)), cache)
    | .response status body =>
      if isSuccess status then
        match env.parseJson body with
        | .ok parsed =>
          let markdown := pypiSearchMarkdown query lim parsed
          (.ok markdown, cache.set cacheKey markdown)
        | .error _ => pypiScrapeSearchResults env cache query (some lim)
      else pypiScrapeSearchResults env cache query (some lim)

/-! ### Go client (`golang.rs`) -/

/-- The `User-Agent` of the Go client. -/
def goUserAgent : String := "CodeNav/0.1.0"

/-- Cache key of `GoClient::lookup_package`. -/
def goPackageKey (packageName : String) (version : Option String) : String :=
  match version with
  | some ver => "go:package:" ++ packageName ++ "@" ++ ver
  | none => "go:package:" ++ packageName

/-- URL of `GoClient::lookup_package`. -/
def goPackageUrl (packageName : String) (version : Option String) : String :=
  match version with
  | some ver => "https://pkg.go.dev/" ++ packageName ++ "@" ++ ver
  | none => "https://pkg.go.dev/" ++ packageName

/-- `GoClient::lookup_package` (the poisoned-lock failure of the std
mutex is not modelled: the lock is taken and released around single map
operations only). -/
def goLookupPackage (env : Env) (cache : Cache) (packageName : String)
    (version : Option String) : Except ToolError String × Cache :=
  let cacheKey := goPackageKey packageName version
  match cache.get cacheKey with
  | some cached => (.ok cached, cache)
  | none =>
    match env.fetch (goPackageUrl packageName version) goUserAgent with
    | .transportError e =>
        (.error (.executionError
          ("Failed to fetch Go package documentation: " ++ e)), cache)
    | .response status body =>
      if isSuccess status then
        let md := env.parseHtml body
        (.ok md, cache.set cacheKey md)
      else
        (.error (.executionError
          ("Failed to fetch Go package documentation. Status: " ++ toString status)),
         cache)

/-- Cache key of `GoClient::search_packages` (clamp already applied). -/
def goSearchKey (query : String) (limit : Option Nat) : String :=
  "go:search:" ++ query ++ ":" ++ toString (effectiveLimit limit)

/-- URL of `GoClient::search_packages` (clamp already applied). -/
def goSearchUrl (query : String) (limit : Option Nat) : String :=
  "https://pkg.go.dev/search?q=" ++ query ++ "&limit="
    ++ toString (effectiveLimit limit)

/-- `GoClient::search_packages`. -/
def goSearchPackages (env : Env) (cache : Cache) (query : String)
    (limit : Option Nat) : Except ToolError String × Cache :=
  let cacheKey := goSearchKey query limit
  match cache.get cacheKey with
  | some cached => (.ok cached, cache)
  | none =>
    match env.fetch (goSearchUrl query limit) goUserAgent with
    | .transportError e =>
        (.error (.executionError ("Failed to search Go packages: " ++ e)), cache)
    | .response status body =>
      if isSuccess status then
        let md := env.parseHtml body
        (.ok md, cache.set cacheKey md)
      else
        (.error (.executionError
          ("Failed to search Go packages. Status: " ++ toString status)), cache)

/-- Cache key of `GoClient::lookup_item`. -/
def goItemKey (packageName itemPath : String) (version : Option String) : String :=
  match version with
  | some ver => "go:item:" ++ packageName ++ "@" ++ ver ++ "#" ++ itemPath
  | none => "go:item:" ++ packageName ++ "#" ++ itemPath

/-- URL of `GoClient::lookup_item`. -/
def goItemUrl (packageName itemPath : String) (version : Option String) : String :=
  match version with
  | some ver => "https://pkg.go.dev/" ++ packageName ++ "@" ++ ver ++ "#" ++ itemPath
  | none => "https://pkg.go.dev/" ++ packageName ++ "#" ++ itemPath

/-- `GoClient::lookup_item`. -/
def goLookupItem (env : Env) (cache : Cache) (packageName itemPath : String)
    (version : Option String) : Except ToolError String × Cache :=
  let cacheKey := goItemKey packageName itemPath version
  match cache.get cacheKey with
  | some cached => (.ok cached, cache)
  | none =>
    match env.fetch (goItemUrl packageName itemPath version) goUserAgent with
    | .transportError e =>
        (.error (.executionError
          ("Failed to fetch Go item documentation: " ++ e)), cache)
    | .response status body =>
      if isSuccess status then
        let md := env.parseHtml body
        (.ok md, cache.set cacheKey md)
      else
        (.error (.executionError
          ("Failed to fetch Go item documentation. Status: " ++ toString status)),
         cache)

/-- `DocRouter::lookup_go_symbol`: delegates to `GoClient::lookup_item`
with the symbol name as the item path. -/
def lookupGoSymbol (env : Env) (cache : Cache) (packageName symbolName : String)
    (version : Option String) : Except ToolError String × Cache :=
  goLookupItem env cache packageName symbolName version

/-- `DocRouter::lookup_go_item`: delegates to `GoClient::lookup_item`. -/
def lookupGoItem (env : Env) (cache : Cache) (packageName itemPath : String)
    (version : Option String) : Except ToolError String × Cache :=
  goLookupItem env cache packageName itemPath version

/-! ### Tool dispatcher (`DocRouter::call_tool`)

`call_tool` first validates and extracts the declared arguments and only
then invokes a provider method.  The embedding makes that phase explicit:
`callTool` returns either the `ToolError` produced by validation (or the
unknown-tool fallback) or the fully-typed provider invocation it would
perform — so an `Except.error` outcome means no provider method is ever
invoked. -/

/-- The typed provider invocation `call_tool` dispatches to. -/
inductive ProviderCall where
  | lookupCrateCall (crateName : String) (version : Option String)
  | searchCratesCall (query : String) (limit : Option Nat)
  | lookupItemCall (crateName itemPath : String) (version : Option String)
  | listDevdocsCall
  | getDevdocsCall (slug : String) (entry : Option String)
  | searchDevdocsCall (slug query : String)
  | lookupNpmCall (packageName : String) (version : Option String)
  | searchNpmCall (query : String) (limit : Option Nat)
  | lookupPypiCall (packageName : String) (version : Option String)
  | searchPypiCall (query : String) (limit : Option Nat)
  | lookupGoPackageCall (packageName : String) (version : Option String)
  | searchGoCall (query : String) (limit : Option Nat)
  | lookupGoSymbolCall (packageName symbolName : String) (version : Option String)
  | lookupGoItemCall (packageName itemPath : String) (version : Option String)
deriving DecidableEq, Repr

/-- Extraction of a required string argument:
`arguments.get(k).and_then(as_str).ok_or(InvalidParameters)`. -/
def requireStrArg (args : Json) (k : String) : Except ToolError String :=
  match (args.get k).bind Json.asStr with
  | some s => .ok s
  | none => .error (.invalidParameters (k ++ " is required"))

/-- Permissive extraction of an optional string argument. -/
def optStrArg (args : Json) (k : String) : Option String :=
  (args.get k).bind Json.asStr

/-- Permissive extraction of the optional `limit`:
`as_u64` then the `as u32` cast. -/
def optLimitArg (args : Json) : Option Nat :=
  ((args.get "limit").bind Json.asU64).map fun v => v % 2 ^ 32

/-- The validation and routing phase of `DocRouter::call_tool`, arm by
arm in declaration order; Rust's `match` on `&str` is an ordered
comparison chain. -/
def callTool (toolName : String) (args : Json) : Except ToolError ProviderCall :=
  if toolName = "lookup_crate" then do
    let crateName ← requireStrArg args "crate_name"
    .ok (.lookupCrateCall crateName (optStrArg args "version"))
  else if toolName = "search_crates" then do
    let query ← requireStrArg args "query"
    .ok (.searchCratesCall query (optLimitArg args))
  else if toolName = "lookup_item" then do
    let crateName ← requireStrArg args "crate_name"
    let itemPath ← requireStrArg args "item_path"
    .ok (.lookupItemCall crateName itemPath (optStrArg args "version"))
  else if toolName = "list_devdocs_documentations" then
    .ok .listDevdocsCall
  else if toolName = "get_devdocs_documentation" then do
    let slug ← requireStrArg args "slug"
    .ok (.getDevdocsCall slug (optStrArg args "entry"))
  else if toolName = "search_devdocs_documentation" then do
    let slug ← requireStrArg args "slug"
    let query ← requireStrArg args "query"
    .ok (.searchDevdocsCall slug query)
  else if toolName = "lookup_npm_package" then do
    let packageName ← requireStrArg args "package_name"
    .ok (.lookupNpmCall packageName (optStrArg args "version"))
  else if toolName = "search_npm_packages" then do
    let query ← requireStrArg args "query"
    .ok (.searchNpmCall query (optLimitArg args))
  else if toolName = "lookup_pypi_package" then do
    let packageName ← requireStrArg args "package_name"
    .ok (.lookupPypiCall packageName (optStrArg args "version"))
  else if toolName = "search_pypi_packages" then do
    let query ← requireStrArg args "query"
    .ok (.searchPypiCall query (optLimitArg args))
  else if toolName = "lookup_go_package" then do
    let packageName ← requireStrArg args "package_name"
    .ok (.lookupGoPackageCall packageName (optStrArg args "version"))
  else if toolName = "search_go_packages" then do
    let query ← requireStrArg args "query"
    .ok (.searchGoCall query (optLimitArg args))
  else if toolName = "lookup_go_symbol" then do
    let packageName ← requireStrArg args "package_name"
    let symbolName ← requireStrArg args "symbol_name"
    .ok (.lookupGoSymbolCall packageName symbolName (optStrArg args "version"))
  else if toolName = "lookup_go_item" then do
    let packageName ← requireStrArg args "package_name"
    let itemPath ← requireStrArg args "item_path"
    .ok (.lookupGoItemCall packageName itemPath (optStrArg args "version"))
  else
    .error (.notFound ("Tool " ++ toolName ++ " not found"))

/-- The registry: the names of the fourteen declared tools, in
declaration order of `list_tools`. -/
def registryToolNames : List String :=
  ["lookup_crate", "search_crates", "lookup_item",
   "list_devdocs_documentations", "get_devdocs_documentation",
   "search_devdocs_documentation",
   "lookup_npm_package", "search_npm_packages",
   "lookup_pypi_package", "search_pypi_packages",
   "lookup_go_package", "search_go_packages",
   "lookup_go_symbol", "lookup_go_item"]

/-- The `required` list each tool's schema declares in `list_tools`
(every required field is string-typed). -/
def toolRequiredFields : List (String × List String) :=
  [("lookup_crate", ["crate_name"]),
   ("search_crates", ["query"]),
   ("lookup_item", ["crate_name", "item_path"]),
   ("list_devdocs_documentations", []),
   ("get_devdocs_documentation", ["slug"]),
   ("search_devdocs_documentation", ["slug", "query"]),
   ("lookup_npm_package", ["package_name"]),
   ("search_npm_packages", ["query"]),
   ("lookup_pypi_package", ["package_name"]),
   ("search_pypi_packages", ["query"]),
   ("lookup_go_package", ["package_name"]),
   ("search_go_packages", ["query"]),
   ("lookup_go_symbol", ["package_name", "symbol_name"]),
   ("lookup_go_item", ["package_name", "item_path"])]

/-- A required key that is absent from the arguments or not a string. -/
def missingOrNotString (args : Json) (k : String) : Prop :=
  (args.get k).bind Json.asStr = none

/-! ## General lemmas -/

theorem charsContains_self_append (needle rest : List Char) :
    charsContains needle (needle ++ rest) = true := by
  cases needle with
  | nil =>
    cases rest with
    | nil => rfl
    | cons c t => simp [charsContains, List.isPrefixOf]
  | cons c cs =>
    show charsContains (c :: cs) (c :: (cs ++ rest)) = true
    simp only [charsContains, Bool.or_eq_true]
    exact Or.inl (by
      rw [List.isPrefixOf_iff_prefix, ← List.cons_append]
      exact List.prefix_append (c :: cs) rest)

theorem charsContains_mid (pre needle post : List Char) :
    charsContains needle (pre ++ (needle ++ post)) = true := by
  induction pre with
  | nil => simpa using charsContains_self_append needle post
  | cons c cs ih =>
    show charsContains needle (c :: (cs ++ (needle ++ post))) = true
    simp [charsContains, ih]

theorem strContains_mid (pre needle post : String) :
    strContains (pre ++ needle ++ post) needle = true := by
  have h : (pre ++ needle ++ post).data = pre.data ++ (needle.data ++ post.data) := by
    simp [String.data_append]
  simp only [strContains, h]
  exact charsContains_mid pre.data needle.data post.data

/-- Splitting at a separator absent from the left parts is unambiguous. -/
theorem sep_split_inj {c : Char} :
    ∀ (l1 l2 r1 r2 : List Char), c ∉ l1 → c ∉ l2 →
      l1 ++ c :: r1 = l2 ++ c :: r2 → l1 = l2 ∧ r1 = r2 := by
  intro l1
  induction l1 with
  | nil =>
    intro l2 r1 r2 _ h2 heq
    cases l2 with
    | nil => simpa using heq
    | cons b bs =>
      exfalso
      simp only [List.nil_append, List.cons_append, List.cons.injEq] at heq
      exact h2 (heq.1 ▸ List.mem_cons_self b bs)
  | cons a as ih =>
    intro l2 r1 r2 h1 h2 heq
    cases l2 with
    | nil =>
      exfalso
      simp only [List.cons_append, List.nil_append, List.cons.injEq] at heq
      exact h1 (heq.1 ▸ List.mem_cons_self a as)
    | cons b bs =>
      simp only [List.cons_append, List.cons.injEq] at heq
      obtain ⟨rfl, heq⟩ := heq
      have := ih bs r1 r2 (fun hm => h1 (List.mem_cons_of_mem _ hm))
        (fun hm => h2 (List.mem_cons_of_mem _ hm)) heq
      exact ⟨by rw [this.1], this.2⟩

/-! ## Claim theorems -/

/-- Claim C7: `get` on a fresh cache returns absent; after `set k v`,
`get k` returns exactly `v`; a second `set k v2` makes `get k` return
`v2` — last-write-wins overwrite. -/
theorem cache_get_set_laws (k v v2 : String) (c : Cache) :
    Cache.get Cache.empty k = none
    ∧ (c.set k v).get k = some v
    ∧ ((c.set k v).set k v2).get k = some v2 := by
  refine ⟨rfl, ?_, ?_⟩ <;> simp [Cache.set, Cache.get]

/-- Claim C10: `lookup_go_symbol` and `lookup_go_item` both delegate to
the one `GoClient::lookup_item`, so on equal package, path and version
they are one and the same computation — same cache key, same URL, same
result. -/
theorem go_symbol_eq_go_item (env : Env) (cache : Cache)
    (packageName path : String) (version : Option String) :
    lookupGoSymbol env cache packageName path version
        = goLookupItem env cache packageName path version
    ∧ lookupGoItem env cache packageName path version
        = goLookupItem env cache packageName path version
    ∧ lookupGoSymbol env cache packageName path version
        = lookupGoItem env cache packageName path version :=
  ⟨rfl, rfl, rfl⟩

/-- Claim C6: calling a tool name outside the registry yields `NotFound`
whose message contains that name, whatever the arguments. -/
theorem call_tool_unknown_not_found (toolName : String) (args : Json)
    (h : toolName ∉ registryToolNames) :
    callTool toolName args
        = .error (.notFound ("Tool " ++ toolName ++ " not found"))
    ∧ strContains ("Tool " ++ toolName ++ " not found") toolName = true := by
  constructor
  · simp only [registryToolNames, List.mem_cons, List.not_mem_nil, or_false,
      not_or] at h
    obtain ⟨h1, h2, h3, h4, h5, h6, h7, h8, h9, h10, h11, h12, h13, h14⟩ := h
    simp [callTool, h1, h2, h3, h4, h5, h6, h7, h8, h9, h10, h11, h12, h13, h14]
  · exact strContains_mid "Tool " toolName " not found"

/-- Claim C6 witness: the name of an unregistered tool comes back inside
the `NotFound` message. -/
theorem call_tool_unknown_not_found_witness :
    callTool "invalid_tool" Json.null
        = .error (.notFound ("Tool " ++ "invalid_tool" ++ " not found"))
    ∧ strContains ("Tool " ++ "invalid_tool" ++ " not found") "invalid_tool"
        = true :=
  call_tool_unknown_not_found "invalid_tool" Json.null (by decide)

/-- Claim C4: a missing search limit defaults to 10, a limit above 100 is
silently clamped to 100, and a search with `limit=500` is
indistinguishable from one with `limit=100`: the whole operation (hence
its cache key and the page size sent upstream) is equal for every
provider. -/
theorem search_limit_clamp :
    effectiveLimit none = 10
    ∧ (∀ n : Nat, 100 < n → effectiveLimit (some n) = 100)
    ∧ (∀ env cache q, searchCrates env cache q (some 500)
        = searchCrates env cache q (some 100))
    ∧ (∀ env cache q, npmSearchPackages env cache q (some 500)
        = npmSearchPackages env cache q (some 100))
    ∧ (∀ env cache q, pypiSearchPackages env cache q (some 500)
        = pypiSearchPackages env cache q (some 100))
    ∧ (∀ env cache q, goSearchPackages env cache q (some 500)
        = goSearchPackages env cache q (some 100))
    ∧ (∀ q, npmSearchKey q (some 500) = npmSearchKey q (some 100)
        ∧ pypiSearchKey q (some 500) = pypiSearchKey q (some 100)
        ∧ goSearchKey q (some 500) = goSearchKey q (some 100)
        ∧ npmSearchUrl q (some 500) = npmSearchUrl q (some 100)
        ∧ goSearchUrl q (some 500) = goSearchUrl q (some 100)
        ∧ searchCratesUrl q (effectiveLimit (some 500))
            = searchCratesUrl q (effectiveLimit (some 100))) := by
  have hclamp : ∀ n : Nat, 100 < n → effectiveLimit (some n) = 100 := by
    intro n hn
    simp [effectiveLimit, Nat.min_eq_right (Nat.le_of_lt hn)]
  refine ⟨rfl, hclamp, ?_, ?_, ?_, ?_,
    fun q => ⟨rfl, rfl, rfl, rfl, rfl, rfl⟩⟩ <;> intros <;> rfl

/-- Claim C4 witness: the clamp at the concrete limit 500. -/
theorem search_limit_clamp_witness :
    effectiveLimit (some 500) = 100 :=
  search_limit_clamp.2.1 500 (by decide)

theorem strContains_left (a b : String) : strContains (a ++ b) a = true := by
  simp only [strContains, String.data_append]
  exact charsContains_self_append a.data b.data

/-- Claim C5: for every registered tool, whenever some declared required
key is absent or not string-typed in the arguments, `call_tool` fails
with `InvalidParameters` naming such a field, and no provider method is
invoked (the result is an error, never a `ProviderCall`). -/
theorem call_tool_missing_required (t : String) (reqs : List String)
    (hmem : (t, reqs) ∈ toolRequiredFields) (args : Json)
    (hex : ∃ k ∈ reqs, missingOrNotString args k) :
    ∃ k ∈ reqs, missingOrNotString args k
      ∧ callTool t args = .error (.invalidParameters (k ++ " is required"))
      ∧ strContains (k ++ " is required") k = true := by
  simp only [toolRequiredFields, List.mem_cons, List.not_mem_nil, or_false,
    Prod.mk.injEq] at hmem
  rcases hmem with ⟨rfl, rfl⟩ | ⟨rfl, rfl⟩ | ⟨rfl, rfl⟩ | ⟨rfl, rfl⟩ |
    ⟨rfl, rfl⟩ | ⟨rfl, rfl⟩ | ⟨rfl, rfl⟩ | ⟨rfl, rfl⟩ | ⟨rfl, rfl⟩ |
    ⟨rfl, rfl⟩ | ⟨rfl, rfl⟩ | ⟨rfl, rfl⟩ | ⟨rfl, rfl⟩ | ⟨rfl, rfl⟩
  · simp only [List.mem_cons, List.not_mem_nil, or_false, exists_eq_left] at hex
    refine ⟨"crate_name", by simp, hex, ?_, strContains_left _ _⟩
    have hx : (args.get "crate_name").bind Json.asStr = none := hex
    simp only [callTool, requireStrArg, hx]
    rfl
  · simp only [List.mem_cons, List.not_mem_nil, or_false, exists_eq_left] at hex
    refine ⟨"query", by simp, hex, ?_, strContains_left _ _⟩
    have hx : (args.get "query").bind Json.asStr = none := hex
    simp only [callTool, requireStrArg, hx]
    rfl
  · by_cases hb : missingOrNotString args "crate_name"
    · refine ⟨"crate_name", by simp, hb, ?_, strContains_left _ _⟩
      have hx : (args.get "crate_name").bind Json.asStr = none := hb
      simp only [callTool, requireStrArg, hx, if_true, if_pos]
      rfl
    · have hbad : missingOrNotString args "item_path" := by
        rcases hex with ⟨k, hk, hkbad⟩
        simp only [List.mem_cons, List.not_mem_nil, or_false] at hk
        rcases hk with rfl | rfl
        · exact absurd hkbad hb
        · exact hkbad
      obtain ⟨s, hs⟩ : ∃ s, (args.get "crate_name").bind Json.asStr = some s :=
        Option.ne_none_iff_exists'.mp hb
      refine ⟨"item_path", by simp, hbad, ?_, strContains_left _ _⟩
      have hx : (args.get "item_path").bind Json.asStr = none := hbad
      simp only [callTool, requireStrArg, hs, hx]
      rfl
  · simp at hex
  · simp only [List.mem_cons, List.not_mem_nil, or_false, exists_eq_left] at hex
    refine ⟨"slug", by simp, hex, ?_, strContains_left _ _⟩
    have hx : (args.get "slug").bind Json.asStr = none := hex
    simp only [callTool, requireStrArg, hx]
    rfl
  · by_cases hb : missingOrNotString args "slug"
    · refine ⟨"slug", by simp, hb, ?_, strContains_left _ _⟩
      have hx : (args.get "slug").bind Json.asStr = none := hb
      simp only [callTool, requireStrArg, hx, if_true, if_pos]
      rfl
    · have hbad : missingOrNotString args "query" := by
        rcases hex with ⟨k, hk, hkbad⟩
        simp only [List.mem_cons, List.not_mem_nil, or_false] at hk
        rcases hk with rfl | rfl
        · exact absurd hkbad hb
        · exact hkbad
      obtain ⟨s, hs⟩ : ∃ s, (args.get "slug").bind Json.asStr = some s :=
        Option.ne_none_iff_exists'.mp hb
      refine ⟨"query", by simp, hbad, ?_, strContains_left _ _⟩
      have hx : (args.get "query").bind Json.asStr = none := hbad
      simp only [callTool, requireStrArg, hs, hx]
      rfl
  · simp only [List.mem_cons, List.not_mem_nil, or_false, exists_eq_left] at hex
    refine ⟨"package_name", by simp, hex, ?_, strContains_left _ _⟩
    have hx : (args.get "package_name").bind Json.asStr = none := hex
    simp only [callTool, requireStrArg, hx]
    rfl
  · simp only [List.mem_cons, List.not_mem_nil, or_false, exists_eq_left] at hex
    refine ⟨"query", by simp, hex, ?_, strContains_left _ _⟩
    have hx : (args.get "query").bind Json.asStr = none := hex
    simp only [callTool, requireStrArg, hx]
    rfl
  · simp only [List.mem_cons, List.not_mem_nil, or_false, exists_eq_left] at hex
    refine ⟨"package_name", by simp, hex, ?_, strContains_left _ _⟩
    have hx : (args.get "package_name").bind Json.asStr = none := hex
    simp only [callTool, requireStrArg, hx]
    rfl
  · simp only [List.mem_cons, List.not_mem_nil, or_false, exists_eq_left] at hex
    refine ⟨"query", by simp, hex, ?_, strContains_left _ _⟩
    have hx : (args.get "query").bind Json.asStr = none := hex
    simp only [callTool, requireStrArg, hx]
    rfl
  · simp only [List.mem_cons, List.not_mem_nil, or_false, exists_eq_left] at hex
    refine ⟨"package_name", by simp, hex, ?_, strContains_left _ _⟩
    have hx : (args.get "package_name").bind Json.asStr = none := hex
    simp only [callTool, requireStrArg, hx]
    rfl
  · simp only [List.mem_cons, List.not_mem_nil, or_false, exists_eq_left] at hex
    refine ⟨"query", by simp, hex, ?_, strContains_left _ _⟩
    have hx : (args.get "query").bind Json.asStr = none := hex
    simp only [callTool, requireStrArg, hx]
    rfl
  · by_cases hb : missingOrNotString args "package_name"
    · refine ⟨"package_name", by simp, hb, ?_, strContains_left _ _⟩
      have hx : (args.get "package_name").bind Json.asStr = none := hb
      simp only [callTool, requireStrArg, hx, if_true, if_pos]
      rfl
    · have hbad : missingOrNotString args "symbol_name" := by
        rcases hex with ⟨k, hk, hkbad⟩
        simp only [List.mem_cons, List.not_mem_nil, or_false] at hk
        rcases hk with rfl | rfl
        · exact absurd hkbad hb
        · exact hkbad
      obtain ⟨s, hs⟩ : ∃ s, (args.get "package_name").bind Json.asStr = some s :=
        Option.ne_none_iff_exists'.mp hb
      refine ⟨"symbol_name", by simp, hbad, ?_, strContains_left _ _⟩
      have hx : (args.get "symbol_name").bind Json.asStr = none := hbad
      simp only [callTool, requireStrArg, hs, hx]
      rfl
  · by_cases hb : missingOrNotString args "package_name"
    · refine ⟨"package_name", by simp, hb, ?_, strContains_left _ _⟩
      have hx : (args.get "package_name").bind Json.asStr = none := hb
      simp only [callTool, requireStrArg, hx, if_true, if_pos]
      rfl
    · have hbad : missingOrNotString args "item_path" := by
        rcases hex with ⟨k, hk, hkbad⟩
        simp only [List.mem_cons, List.not_mem_nil, or_false] at hk
        rcases hk with rfl | rfl
        · exact absurd hkbad hb
        · exact hkbad
      obtain ⟨s, hs⟩ : ∃ s, (args.get "package_name").bind Json.asStr = some s :=
        Option.ne_none_iff_exists'.mp hb
      refine ⟨"item_path", by simp, hbad, ?_, strContains_left _ _⟩
      have hx : (args.get "item_path").bind Json.asStr = none := hbad
      simp only [callTool, requireStrArg, hs, hx]
      rfl

/-- Claim C5 witness: `lookup_item` called with only `item_path` fails
with `InvalidParameters` naming `crate_name`, before any provider call. -/
theorem call_tool_missing_required_witness :
    ∃ k ∈ ["crate_name", "item_path"],
      missingOrNotString (Json.obj [("item_path", Json.str "Stream")]) k
      ∧ callTool "lookup_item" (Json.obj [("item_path", Json.str "Stream")])
          = .error (.invalidParameters (k ++ " is required"))
      ∧ strContains (k ++ " is required") k = true :=
  call_tool_missing_required "lookup_item" ["crate_name", "item_path"]
    (by simp [toolRequiredFields]) (Json.obj [("item_path", Json.str "Stream")])
    ⟨"crate_name", by simp, rfl⟩

theorem lookupItemLoop_cons (env : Env) (cn : String) (ver : Option String)
    (mp iname t : String) (rest : List String) (lastErr : Option String) :
    lookupItemLoop env cn ver mp iname (t :: rest) lastErr
      = (match env.fetch (itemUrl cn ver mp t iname) docsUserAgent with
         | .transportError e =>
           ((lookupItemLoop env cn ver mp iname rest (some e)).1,
            itemUrl cn ver mp t iname ::
              (lookupItemLoop env cn ver mp iname rest (some e)).2)
         | .response status body =>
           if isSuccess status then
             (.ok (env.parseHtml body), [itemUrl cn ver mp t iname])
           else
             ((lookupItemLoop env cn ver mp iname rest
                 (some ("Status code: " ++ toString status))).1,
              itemUrl cn ver mp t iname ::
                (lookupItemLoop env cn ver mp iname rest
                  (some ("Status code: " ++ toString status))).2)) := rfl

theorem lookupItemLoop_cons_success (env : Env) (cn : String)
    (ver : Option String) (mp iname t : String) (rest : List String)
    (lastErr : Option String) (s : Nat) (b : String)
    (hf : env.fetch (itemUrl cn ver mp t iname) docsUserAgent = .response s b)
    (hs : isSuccess s = true) :
    lookupItemLoop env cn ver mp iname (t :: rest) lastErr
      = (.ok (env.parseHtml b), [itemUrl cn ver mp t iname]) := by
  rw [lookupItemLoop_cons, hf]
  simp [hs]

theorem lookupItemLoop_cons_fail (env : Env) (cn : String)
    (ver : Option String) (mp iname t : String) (rest : List String)
    (lastErr : Option String)
    (hfail : attemptFails env (itemUrl cn ver mp t iname) = true) :
    lookupItemLoop env cn ver mp iname (t :: rest) lastErr
      = ((lookupItemLoop env cn ver mp iname rest
            (some (attemptErrorMsg
              (env.fetch (itemUrl cn ver mp t iname) docsUserAgent)))).1,
         itemUrl cn ver mp t iname ::
           (lookupItemLoop env cn ver mp iname rest
             (some (attemptErrorMsg
               (env.fetch (itemUrl cn ver mp t iname) docsUserAgent)))).2) := by
  rw [lookupItemLoop_cons]
  rcases hfp : env.fetch (itemUrl cn ver mp t iname) docsUserAgent
      with ⟨s', b'⟩ | ⟨e⟩
  · have hs' : isSuccess s' = false := by
      simpa [attemptFails, hfp] using hfail
    simp [hs', attemptErrorMsg]
  · simp [attemptErrorMsg]

theorem lookupItemLoop_first_success (env : Env) (cn : String)
    (ver : Option String) (mp iname : String) :
    ∀ (types pre : List String) (u : String) (post : List String)
      (s : Nat) (b : String) (lastErr : Option String),
      types.map (fun t => itemUrl cn ver mp t iname) = pre ++ u :: post →
      (∀ x ∈ pre, attemptFails env x = true) →
      env.fetch u docsUserAgent = .response s b →
      isSuccess s = true →
      lookupItemLoop env cn ver mp iname types lastErr
        = (.ok (env.parseHtml b), pre ++ [u]) := by
  intro types
  induction types with
  | nil =>
    intro pre u post s b lastErr hmap
    cases pre <;> simp_all
  | cons t rest ih =>
    intro pre u post s b lastErr hmap hpre hf hs
    cases pre with
    | nil =>
      simp only [List.map_cons, List.nil_append, List.cons.injEq] at hmap
      obtain ⟨hu, _⟩ := hmap
      subst hu
      rw [lookupItemLoop_cons_success env cn ver mp iname t rest lastErr s b hf hs]
      simp
    | cons p ps =>
      simp only [List.map_cons, List.cons_append, List.cons.injEq] at hmap
      obtain ⟨hp, hrest⟩ := hmap
      subst hp
      have hfail : attemptFails env (itemUrl cn ver mp t iname) = true :=
        hpre _ (List.mem_cons_self _ ps)
      have hpre2 : ∀ x ∈ ps, attemptFails env x = true :=
        fun x hx => hpre x (List.mem_cons_of_mem _ hx)
      rw [lookupItemLoop_cons_fail env cn ver mp iname t rest lastErr hfail]
      rw [ih ps u post s b _ hrest hpre2 hf hs]
      simp

theorem lookupItemLoop_all_fail (env : Env) (cn : String)
    (ver : Option String) (mp iname : String) :
    ∀ (types : List String) (lastErr : Option String),
      types ≠ [] →
      (∀ x ∈ types.map (fun t => itemUrl cn ver mp t iname),
          attemptFails env x = true) →
      lookupItemLoop env cn ver mp iname types lastErr
        = (.error (.executionError
            ("Failed to fetch item documentation. No matching item found. Last error: "
              ++ attemptErrorMsg (env.fetch
                   (((types.map (fun t => itemUrl cn ver mp t iname)).getLast?).getD "")
                   docsUserAgent))),
           types.map (fun t => itemUrl cn ver mp t iname)) := by
  intro types
  induction types with
  | nil => intro lastErr hne _; exact absurd rfl hne
  | cons t rest ih =>
    intro lastErr _ hfails
    have hfail : attemptFails env (itemUrl cn ver mp t iname) = true :=
      hfails _ (by simp)
    rw [lookupItemLoop_cons_fail env cn ver mp iname t rest lastErr hfail]
    cases rest with
    | nil => simp [lookupItemLoop]
    | cons r rs =>
      have hne2 : (r :: rs : List String) ≠ [] := by simp
      have hfr : ∀ x ∈ (r :: rs).map (fun t2 => itemUrl cn ver mp t2 iname),
          attemptFails env x = true := by
        intro x hx
        apply hfails
        simp only [List.map_cons, List.mem_cons] at hx ⊢
        exact Or.inr hx
      rw [ih _ hne2 hfr]
      have hlast : (((t :: r :: rs).map (fun t2 => itemUrl cn ver mp t2 iname)).getLast?).getD ""
          = (((r :: rs).map (fun t2 => itemUrl cn ver mp t2 iname)).getLast?).getD "" := by
        simp [List.getLast?_cons_cons]
      rw [hlast]
      simp

/-- Claim C1: on a cache miss, `lookup_item` tries the candidate kinds
strictly in the declared order struct, enum, trait, fn, macro, one URL
per kind; the first candidate whose fetch returns an HTTP success yields
the normalized body of that candidate and nothing after it is attempted;
if every candidate fails, the call returns an `ExecutionError` reporting
the last attempted status or transport failure. -/
theorem lookup_item_ordered_fallback (env : Env) (cache : Cache)
    (crateName itemPathRaw : String) (version : Option String)
    (hmiss : cache.get (lookupItemKey crateName
        (stripCratePrefix crateName itemPathRaw) version) = none) :
    (∀ (pre : List String) (u : String) (post : List String) (s : Nat) (b : String),
       candidateUrls crateName version (stripCratePrefix crateName itemPathRaw)
           = pre ++ u :: post →
       (∀ x ∈ pre, attemptFails env x = true) →
       env.fetch u docsUserAgent = .response s b →
       isSuccess s = true →
       lookupItem env cache crateName itemPathRaw version
         = ⟨.ok (env.parseHtml b),
            cache.set (lookupItemKey crateName
              (stripCratePrefix crateName itemPathRaw) version) (env.parseHtml b),
            pre ++ [u]⟩)
    ∧ ((∀ x ∈ candidateUrls crateName version (stripCratePrefix crateName itemPathRaw),
          attemptFails env x = true) →
       lookupItem env cache crateName itemPathRaw version
         = ⟨.error (.executionError
             ("Failed to fetch item documentation. No matching item found. Last error: "
               ++ attemptErrorMsg (env.fetch
                    (((candidateUrls crateName version
                        (stripCratePrefix crateName itemPathRaw)).getLast?).getD "")
                    docsUserAgent))),
            cache,
            candidateUrls crateName version (stripCratePrefix crateName itemPathRaw)⟩) := by
  have hne : (itemPathParts (stripCratePrefix crateName itemPathRaw)).isEmpty = false := by
    rw [List.isEmpty_eq_false]
    exact itemPathParts_ne_nil _
  constructor
  · intro pre u post s b hurls hpre hf hs
    have hloop := lookupItemLoop_first_success env crateName version
      (modulePathOf (stripCratePrefix crateName itemPathRaw))
      (itemNameOf (stripCratePrefix crateName itemPathRaw))
      itemTypes pre u post s b none hurls hpre hf hs
    simp only [lookupItem, hmiss, hne, Bool.false_eq_true, if_false]
    rw [hloop]
  · intro hfails
    have hloop := lookupItemLoop_all_fail env crateName version
      (modulePathOf (stripCratePrefix crateName itemPathRaw))
      (itemNameOf (stripCratePrefix crateName itemPathRaw))
      itemTypes none (by simp [itemTypes]) hfails
    simp only [lookupItem, hmiss, hne, Bool.false_eq_true, if_false]
    rw [hloop]
    rfl

/-- Environment of the C1 witness: the struct and enum candidates 404,
the trait candidate succeeds. -/
def envC1 : Env where
  fetch := fun url _ =>
    if url = itemUrl "mycrate" none "" "trait" "Widget" then .response 200 "BODY"
    else .response 404 "missing"
  parseHtml := fun s => "MD:" ++ s
  parseJson := fun _ => .error "unused"

/-- Claim C1 witness: with only the third candidate (trait) succeeding,
`lookup_item` returns that candidate's normalized body, caches it, and
attempts exactly the first three candidate URLs. -/
theorem lookup_item_ordered_fallback_witness :
    lookupItem envC1 Cache.empty "mycrate" "Widget" none
      = ⟨.ok (envC1.parseHtml "BODY"),
         Cache.empty.set (lookupItemKey "mycrate"
           (stripCratePrefix "mycrate" "Widget") none) (envC1.parseHtml "BODY"),
         [itemUrl "mycrate" none "" "struct" "Widget",
          itemUrl "mycrate" none "" "enum" "Widget"] ++
           [itemUrl "mycrate" none "" "trait" "Widget"]⟩ :=
  (lookup_item_ordered_fallback envC1 Cache.empty "mycrate" "Widget" none rfl).1
    [itemUrl "mycrate" none "" "struct" "Widget",
     itemUrl "mycrate" none "" "enum" "Widget"]
    (itemUrl "mycrate" none "" "trait" "Widget")
    [itemUrl "mycrate" none "" "fn" "Widget",
     itemUrl "mycrate" none "" "macro" "Widget"]
    200 "BODY" (by decide) (by decide) (by decide) (by decide)

/-! ## Cache discipline lemmas: hit, store-on-success, unchanged-on-error -/

theorem effectiveLimit_idem (l : Option Nat) :
    effectiveLimit (some (effectiveLimit l)) = effectiveLimit l := by
  simp [effectiveLimit, Nat.min_assoc]

theorem lookupCrate_hit (env : Env) (cache : Cache) (a : String)
    (ver : Option String) (v : String)
    (h : cache.get (lookupCrateKey a ver) = some v) :
    lookupCrate env cache a ver = (.ok v, cache) := by
  simp [lookupCrate, h]

theorem lookupCrate_store (env : Env) (cache : Cache) (a : String)
    (ver : Option String) (r : String) (c' : Cache)
    (hm : cache.get (lookupCrateKey a ver) = none)
    (h : lookupCrate env cache a ver = (.ok r, c')) :
    c' = cache.set (lookupCrateKey a ver) r := by
  simp only [lookupCrate, hm] at h
  split at h
  · exact absurd h (by simp)
  · split at h
    · simp only [Prod.mk.injEq, Except.ok.injEq] at h
      rw [← h.2, h.1]
    · exact absurd h (by simp)

theorem lookupCrate_error_cache (env : Env) (cache : Cache) (a : String)
    (ver : Option String) (e : ToolError) (c' : Cache)
    (h : lookupCrate env cache a ver = (.error e, c')) : c' = cache := by
  simp only [lookupCrate] at h
  split at h
  · exact absurd h (by simp)
  · split at h
    · simp only [Prod.mk.injEq] at h
      exact h.2.symm
    · split at h
      · exact absurd h (by simp)
      · simp only [Prod.mk.injEq] at h
        exact h.2.symm

theorem searchCrates_error_cache (env : Env) (cache : Cache) (q : String)
    (lim : Option Nat) (e : ToolError) (c' : Cache)
    (h : searchCrates env cache q lim = (.error e, c')) : c' = cache := by
  simp only [searchCrates] at h
  split at h
  · simp only [Prod.mk.injEq] at h
    exact h.2.symm
  · split at h
    · split at h
      · exact absurd h (by simp)
      · exact absurd h (by simp)
    · simp only [Prod.mk.injEq] at h
      exact h.2.symm

theorem lookupItem_hit (env : Env) (cache : Cache) (a ip : String)
    (ver : Option String) (v : String)
    (h : cache.get (lookupItemKey a (stripCratePrefix a ip) ver) = some v) :
    lookupItem env cache a ip ver = ⟨.ok v, cache, []⟩ := by
  simp [lookupItem, h]

theorem lookupItem_store (env : Env) (cache : Cache) (a ip : String)
    (ver : Option String) (r : String)
    (hm : cache.get (lookupItemKey a (stripCratePrefix a ip) ver) = none)
    (hres : (lookupItem env cache a ip ver).result = .ok r) :
    (lookupItem env cache a ip ver).cache
      = cache.set (lookupItemKey a (stripCratePrefix a ip) ver) r := by
  have hempty : (itemPathParts (stripCratePrefix a ip)).isEmpty = false := by
    rw [List.isEmpty_eq_false]
    exact itemPathParts_ne_nil _
  simp only [lookupItem, hm, hempty, Bool.false_eq_true, if_false] at hres ⊢
  revert hres
  split
  · intro hres
    simp at hres
    simp [hres]
  · intro hres
    simp at hres

theorem lookupItem_error_cache (env : Env) (cache : Cache) (a ip : String)
    (ver : Option String) (e : ToolError)
    (hres : (lookupItem env cache a ip ver).result = .error e) :
    (lookupItem env cache a ip ver).cache = cache := by
  rcases hget : cache.get (lookupItemKey a (stripCratePrefix a ip) ver) with _ | v
  · have hempty : (itemPathParts (stripCratePrefix a ip)).isEmpty = false := by
      rw [List.isEmpty_eq_false]
      exact itemPathParts_ne_nil _
    simp only [lookupItem, hget, hempty, Bool.false_eq_true, if_false] at hres ⊢
    revert hres
    split
    · intro hres
      simp at hres
    · intro _
      rfl
  · simp [lookupItem, hget]

theorem devdocsList_hit (env : Env) (cache : Cache) (v : String)
    (h : cache.get "devdocs:list" = some v) :
    devdocsListDocumentations env cache = (.ok v, cache) := by
  simp [devdocsListDocumentations, h]

theorem devdocsList_store (env : Env) (cache : Cache) (r : String) (c' : Cache)
    (hm : cache.get "devdocs:list" = none)
    (h : devdocsListDocumentations env cache = (.ok r, c')) :
    c' = cache.set "devdocs:list" r := by
  simp only [devdocsListDocumentations, hm] at h
  split at h
  · exact absurd h (by simp)
  · split at h
    · simp only [Prod.mk.injEq, Except.ok.injEq] at h
      rw [← h.2, h.1]
    · exact absurd h (by simp)

theorem devdocsList_error_cache (env : Env) (cache : Cache)
    (e : ToolError) (c' : Cache)
    (h : devdocsListDocumentations env cache = (.error e, c')) : c' = cache := by
  simp only [devdocsListDocumentations] at h
  split at h
  · exact absurd h (by simp)
  · split at h
    · simp only [Prod.mk.injEq] at h
      exact h.2.symm
    · split at h
      · exact absurd h (by simp)
      · simp only [Prod.mk.injEq] at h
        exact h.2.symm

theorem devdocsGet_hit (env : Env) (cache : Cache) (slug : String)
    (entry : Option String) (v : String)
    (h : cache.get (devdocsGetKey slug entry) = some v) :
    devdocsGetDocumentation env cache slug entry = (.ok v, cache) := by
  simp [devdocsGetDocumentation, h]

theorem devdocsGet_store (env : Env) (cache : Cache) (slug : String)
    (entry : Option String) (r : String) (c' : Cache)
    (hm : cache.get (devdocsGetKey slug entry) = none)
    (h : devdocsGetDocumentation env cache slug entry = (.ok r, c')) :
    c' = cache.set (devdocsGetKey slug entry) r := by
  simp only [devdocsGetDocumentation, hm] at h
  split at h
  · exact absurd h (by simp)
  · split at h
    · simp only [Prod.mk.injEq, Except.ok.injEq] at h
      rw [← h.2, h.1]
    · exact absurd h (by simp)

theorem devdocsGet_error_cache (env : Env) (cache : Cache) (slug : String)
    (entry : Option String) (e : ToolError) (c' : Cache)
    (h : devdocsGetDocumentation env cache slug entry = (.error e, c')) :
    c' = cache := by
  simp only [devdocsGetDocumentation] at h
  split at h
  · exact absurd h (by simp)
  · split at h
    · simp only [Prod.mk.injEq] at h
      exact h.2.symm
    · split at h
      · exact absurd h (by simp)
      · simp only [Prod.mk.injEq] at h
        exact h.2.symm

theorem devdocsSearch_hit (env : Env) (cache : Cache) (slug q : String)
    (v : String) (h : cache.get (devdocsSearchKey slug q) = some v) :
    devdocsSearchDocumentation env cache slug q = (.ok v, cache) := by
  simp [devdocsSearchDocumentation, h]

theorem devdocsSearch_store (env : Env) (cache : Cache) (slug q : String)
    (r : String) (c' : Cache)
    (hm : cache.get (devdocsSearchKey slug q) = none)
    (h : devdocsSearchDocumentation env cache slug q = (.ok r, c')) :
    c' = cache.set (devdocsSearchKey slug q) r := by
  simp only [devdocsSearchDocumentation, hm] at h
  split at h
  · exact absurd h (by simp)
  · split at h
    · simp only [Prod.mk.injEq, Except.ok.injEq] at h
      rw [← h.2, h.1]
    · exact absurd h (by simp)

theorem devdocsSearch_error_cache (env : Env) (cache : Cache) (slug q : String)
    (e : ToolError) (c' : Cache)
    (h : devdocsSearchDocumentation env cache slug q = (.error e, c')) :
    c' = cache := by
  simp only [devdocsSearchDocumentation] at h
  split at h
  · exact absurd h (by simp)
  · split at h
    · simp only [Prod.mk.injEq] at h
      exact h.2.symm
    · split at h
      · exact absurd h (by simp)
      · simp only [Prod.mk.injEq] at h
        exact h.2.symm

theorem npmLookup_hit (env : Env) (cache : Cache) (p : String)
    (ver : Option String) (v : String)
    (h : cache.get (npmLookupKey p ver) = some v) :
    npmLookupPackage env cache p ver = (.ok v, cache) := by
  simp [npmLookupPackage, h]

theorem npmLookup_store (env : Env) (cache : Cache) (p : String)
    (ver : Option String) (r : String) (c' : Cache)
    (hm : cache.get (npmLookupKey p ver) = none)
    (h : npmLookupPackage env cache p ver = (.ok r, c')) :
    c' = cache.set (npmLookupKey p ver) r := by
  simp only [npmLookupPackage, hm] at h
  split at h
  · exact absurd h (by simp)
  · split at h
    · split at h
      · exact absurd h (by simp)
      · simp only [Prod.mk.injEq, Except.ok.injEq] at h
        rw [← h.2, h.1]
    · exact absurd h (by simp)

theorem npmLookup_error_cache (env : Env) (cache : Cache) (p : String)
    (ver : Option String) (e : ToolError) (c' : Cache)
    (h : npmLookupPackage env cache p ver = (.error e, c')) : c' = cache := by
  simp only [npmLookupPackage] at h
  split at h
  · exact absurd h (by simp)
  · split at h
    · simp only [Prod.mk.injEq] at h
      exact h.2.symm
    · split at h
      · split at h
        · simp only [Prod.mk.injEq] at h
          exact h.2.symm
        · exact absurd h (by simp)
      · simp only [Prod.mk.injEq] at h
        exact h.2.symm

theorem npmSearch_hit (env : Env) (cache : Cache) (q : String)
    (lim : Option Nat) (v : String)
    (h : cache.get (npmSearchKey q lim) = some v) :
    npmSearchPackages env cache q lim = (.ok v, cache) := by
  simp [npmSearchPackages, h]

theorem npmSearch_store (env : Env) (cache : Cache) (q : String)
    (lim : Option Nat) (r : String) (c' : Cache)
    (hm : cache.get (npmSearchKey q lim) = none)
    (h : npmSearchPackages env cache q lim = (.ok r, c')) :
    c' = cache.set (npmSearchKey q lim) r := by
  simp only [npmSearchPackages, hm] at h
  split at h
  · exact absurd h (by simp)
  · split at h
    · split at h
      · exact absurd h (by simp)
      · simp only [Prod.mk.injEq, Except.ok.injEq] at h
        rw [← h.2, h.1]
    · exact absurd h (by simp)

theorem npmSearch_error_cache (env : Env) (cache : Cache) (q : String)
    (lim : Option Nat) (e : ToolError) (c' : Cache)
    (h : npmSearchPackages env cache q lim = (.error e, c')) : c' = cache := by
  simp only [npmSearchPackages] at h
  split at h
  · exact absurd h (by simp)
  · split at h
    · simp only [Prod.mk.injEq] at h
      exact h.2.symm
    · split at h
      · split at h
        · simp only [Prod.mk.injEq] at h
          exact h.2.symm
        · exact absurd h (by simp)
      · simp only [Prod.mk.injEq] at h
        exact h.2.symm

theorem pypiLookup_hit (env : Env) (cache : Cache) (p : String)
    (ver : Option String) (v : String)
    (h : cache.get (pypiLookupKey p ver) = some v) :
    pypiLookupPackage env cache p ver = (.ok v, cache) := by
  simp [pypiLookupPackage, h]

theorem pypiLookup_store (env : Env) (cache : Cache) (p : String)
    (ver : Option String) (r : String) (c' : Cache)
    (hm : cache.get (pypiLookupKey p ver) = none)
    (h : pypiLookupPackage env cache p ver = (.ok r, c')) :
    c' = cache.set (pypiLookupKey p ver) r := by
  simp only [pypiLookupPackage, hm] at h
  split at h
  · exact absurd h (by simp)
  · split at h
    · split at h
      · exact absurd h (by simp)
      · simp only [Prod.mk.injEq, Except.ok.injEq] at h
        rw [← h.2, h.1]
    · exact absurd h (by simp)

theorem pypiLookup_error_cache (env : Env) (cache : Cache) (p : String)
    (ver : Option String) (e : ToolError) (c' : Cache)
    (h : pypiLookupPackage env cache p ver = (.error e, c')) : c' = cache := by
  simp only [pypiLookupPackage] at h
  split at h
  · exact absurd h (by simp)
  · split at h
    · simp only [Prod.mk.injEq] at h
      exact h.2.symm
    · split at h
      · split at h
        · simp only [Prod.mk.injEq] at h
          exact h.2.symm
        · exact absurd h (by simp)
      · simp only [Prod.mk.injEq] at h
        exact h.2.symm

theorem pypiScrape_store (env : Env) (cache : Cache) (q : String)
    (l : Option Nat) (r : String) (c' : Cache)
    (h : pypiScrapeSearchResults env cache q l = (.ok r, c')) :
    c' = cache.set ("pypi:search:" ++ q ++ ":" ++ toString (effectiveLimit l)) r := by
  simp only [pypiScrapeSearchResults] at h
  split at h
  · exact absurd h (by simp)
  · split at h
    · simp only [Prod.mk.injEq, Except.ok.injEq] at h
      rw [← h.2, h.1]
    · exact absurd h (by simp)

theorem pypiScrape_error_cache (env : Env) (cache : Cache) (q : String)
    (l : Option Nat) (e : ToolError) (c' : Cache)
    (h : pypiScrapeSearchResults env cache q l = (.error e, c')) : c' = cache := by
  simp only [pypiScrapeSearchResults] at h
  split at h
  · simp only [Prod.mk.injEq] at h
    exact h.2.symm
  · split at h
    · exact absurd h (by simp)
    · simp only [Prod.mk.injEq] at h
      exact h.2.symm

theorem pypiSearch_hit (env : Env) (cache : Cache) (q : String)
    (lim : Option Nat) (v : String)
    (h : cache.get (pypiSearchKey q lim) = some v) :
    pypiSearchPackages env cache q lim = (.ok v, cache) := by
  simp [pypiSearchPackages, h]

theorem pypiSearch_store (env : Env) (cache : Cache) (q : String)
    (lim : Option Nat) (r : String) (c' : Cache)
    (hm : cache.get (pypiSearchKey q lim) = none)
    (h : pypiSearchPackages env cache q lim = (.ok r, c')) :
    c' = cache.set (pypiSearchKey q lim) r := by
  simp only [pypiSearchPackages, hm] at h
  split at h
  · exact absurd h (by simp)
  · split at h
    · split at h
      · simp only [Prod.mk.injEq, Except.ok.injEq] at h
        rw [← h.2, h.1]
      · have := pypiScrape_store env cache q (some (effectiveLimit lim)) r c' h
        rwa [effectiveLimit_idem] at this
    · have := pypiScrape_store env cache q (some (effectiveLimit lim)) r c' h
      rwa [effectiveLimit_idem] at this

theorem pypiSearch_error_cache (env : Env) (cache : Cache) (q : String)
    (lim : Option Nat) (e : ToolError) (c' : Cache)
    (h : pypiSearchPackages env cache q lim = (.error e, c')) : c' = cache := by
  simp only [pypiSearchPackages] at h
  split at h
  · exact absurd h (by simp)
  · split at h
    · simp only [Prod.mk.injEq] at h
      exact h.2.symm
    · split at h
      · split at h
        · exact absurd h (by simp)
        · exact pypiScrape_error_cache env cache q _ e c' h
      · exact pypiScrape_error_cache env cache q _ e c' h

theorem goLookup_hit (env : Env) (cache : Cache) (p : String)
    (ver : Option String) (v : String)
    (h : cache.get (goPackageKey p ver) = some v) :
    goLookupPackage env cache p ver = (.ok v, cache) := by
  simp [goLookupPackage, h]

theorem goLookup_store (env : Env) (cache : Cache) (p : String)
    (ver : Option String) (r : String) (c' : Cache)
    (hm : cache.get (goPackageKey p ver) = none)
    (h : goLookupPackage env cache p ver = (.ok r, c')) :
    c' = cache.set (goPackageKey p ver) r := by
  simp only [goLookupPackage, hm] at h
  split at h
  · exact absurd h (by simp)
  · split at h
    · simp only [Prod.mk.injEq, Except.ok.injEq] at h
      rw [← h.2, h.1]
    · exact absurd h (by simp)

theorem goLookup_error_cache (env : Env) (cache : Cache) (p : String)
    (ver : Option String) (e : ToolError) (c' : Cache)
    (h : goLookupPackage env cache p ver = (.error e, c')) : c' = cache := by
  simp only [goLookupPackage] at h
  split at h
  · exact absurd h (by simp)
  · split at h
    · simp only [Prod.mk.injEq] at h
      exact h.2.symm
    · split at h
      · exact absurd h (by simp)
      · simp only [Prod.mk.injEq] at h
        exact h.2.symm

theorem goSearch_hit (env : Env) (cache : Cache) (q : String)
    (lim : Option Nat) (v : String)
    (h : cache.get (goSearchKey q lim) = some v) :
    goSearchPackages env cache q lim = (.ok v, cache) := by
  simp [goSearchPackages, h]

theorem goSearch_store (env : Env) (cache : Cache) (q : String)
    (lim : Option Nat) (r : String) (c' : Cache)
    (hm : cache.get (goSearchKey q lim) = none)
    (h : goSearchPackages env cache q lim = (.ok r, c')) :
    c' = cache.set (goSearchKey q lim) r := by
  simp only [goSearchPackages, hm] at h
  split at h
  · exact absurd h (by simp)
  · split at h
    · simp only [Prod.mk.injEq, Except.ok.injEq] at h
      rw [← h.2, h.1]
    · exact absurd h (by simp)

theorem goSearch_error_cache (env : Env) (cache : Cache) (q : String)
    (lim : Option Nat) (e : ToolError) (c' : Cache)
    (h : goSearchPackages env cache q lim = (.error e, c')) : c' = cache := by
  simp only [goSearchPackages] at h
  split at h
  · exact absurd h (by simp)
  · split at h
    · simp only [Prod.mk.injEq] at h
      exact h.2.symm
    · split at h
      · exact absurd h (by simp)
      · simp only [Prod.mk.injEq] at h
        exact h.2.symm

theorem goItem_hit (env : Env) (cache : Cache) (p ip : String)
    (ver : Option String) (v : String)
    (h : cache.get (goItemKey p ip ver) = some v) :
    goLookupItem env cache p ip ver = (.ok v, cache) := by
  simp [goLookupItem, h]

theorem goItem_store (env : Env) (cache : Cache) (p ip : String)
    (ver : Option String) (r : String) (c' : Cache)
    (hm : cache.get (goItemKey p ip ver) = none)
    (h : goLookupItem env cache p ip ver = (.ok r, c')) :
    c' = cache.set (goItemKey p ip ver) r := by
  simp only [goLookupItem, hm] at h
  split at h
  · exact absurd h (by simp)
  · split at h
    · simp only [Prod.mk.injEq, Except.ok.injEq] at h
      rw [← h.2, h.1]
    · exact absurd h (by simp)

theorem goItem_error_cache (env : Env) (cache : Cache) (p ip : String)
    (ver : Option String) (e : ToolError) (c' : Cache)
    (h : goLookupItem env cache p ip ver = (.error e, c')) : c' = cache := by
  simp only [goLookupItem] at h
  split at h
  · exact absurd h (by simp)
  · split at h
    · simp only [Prod.mk.injEq] at h
      exact h.2.symm
    · split at h
      · exact absurd h (by simp)
      · simp only [Prod.mk.injEq] at h
        exact h.2.symm

/-- Claim C9: every modelled provider operation that returns an error
leaves the cache exactly as it was — a cache entry is written only on the
success path. -/
theorem provider_error_leaves_cache (env : Env) (cache : Cache) :
    (∀ a ver e c', lookupCrate env cache a ver = (.error e, c') → c' = cache)
    ∧ (∀ q lim e c', searchCrates env cache q lim = (.error e, c') → c' = cache)
    ∧ (∀ a ip ver e, (lookupItem env cache a ip ver).result = .error e →
        (lookupItem env cache a ip ver).cache = cache)
    ∧ (∀ e c', devdocsListDocumentations env cache = (.error e, c') → c' = cache)
    ∧ (∀ slug entry e c',
        devdocsGetDocumentation env cache slug entry = (.error e, c') → c' = cache)
    ∧ (∀ slug q e c',
        devdocsSearchDocumentation env cache slug q = (.error e, c') → c' = cache)
    ∧ (∀ p ver e c', npmLookupPackage env cache p ver = (.error e, c') → c' = cache)
    ∧ (∀ q lim e c', npmSearchPackages env cache q lim = (.error e, c') → c' = cache)
    ∧ (∀ p ver e c', pypiLookupPackage env cache p ver = (.error e, c') → c' = cache)
    ∧ (∀ q lim e c', pypiSearchPackages env cache q lim = (.error e, c') → c' = cache)
    ∧ (∀ q lim e c',
        pypiScrapeSearchResults env cache q lim = (.error e, c') → c' = cache)
    ∧ (∀ p ver e c', goLookupPackage env cache p ver = (.error e, c') → c' = cache)
    ∧ (∀ q lim e c', goSearchPackages env cache q lim = (.error e, c') → c' = cache)
    ∧ (∀ p ip ver e c', goLookupItem env cache p ip ver = (.error e, c') → c' = cache) :=
  ⟨fun a ver e c' => lookupCrate_error_cache env cache a ver e c',
   fun q lim e c' => searchCrates_error_cache env cache q lim e c',
   fun a ip ver e => lookupItem_error_cache env cache a ip ver e,
   fun e c' => devdocsList_error_cache env cache e c',
   fun slug entry e c' => devdocsGet_error_cache env cache slug entry e c',
   fun slug q e c' => devdocsSearch_error_cache env cache slug q e c',
   fun p ver e c' => npmLookup_error_cache env cache p ver e c',
   fun q lim e c' => npmSearch_error_cache env cache q lim e c',
   fun p ver e c' => pypiLookup_error_cache env cache p ver e c',
   fun q lim e c' => pypiSearch_error_cache env cache q lim e c',
   fun q lim e c' => pypiScrape_error_cache env cache q lim e c',
   fun p ver e c' => goLookup_error_cache env cache p ver e c',
   fun q lim e c' => goSearch_error_cache env cache q lim e c',
   fun p ip ver e c' => goItem_error_cache env cache p ip ver e c'⟩

/-- Environment of the C9 witness: every fetch fails at transport level. -/
def envC9 : Env where
  fetch := fun _ _ => .transportError "connection refused"
  parseHtml := id
  parseJson := fun _ => .error "bad json"

/-- Claim C9 witness: a transport-failing `lookup_crate` leaves the empty
cache empty. -/
theorem provider_error_leaves_cache_witness :
    (lookupCrate envC9 Cache.empty "serde" none).2 = Cache.empty :=
  (provider_error_leaves_cache envC9 Cache.empty).1 "serde" none
    (.executionError ("Failed to fetch documentation: " ++ "connection refused"))
    (lookupCrate envC9 Cache.empty "serde" none).2 rfl

/-- One cacheable operation instance: its cache key and, closed over its
typed arguments, the computation it runs. -/
structure CachedOp where
  key : String
  run : Env → Cache → Except ToolError String × Cache

/-- Every tool operation other than `search_crates` (which has no cache
at all), instantiated at arguments `a`, `b`, `ver`, `lim`, `entry`:
the two docs.rs cached operations, the three DevDocs operations, and the
npm, PyPI and Go lookups and searches. -/
def cachedOps (a b : String) (ver : Option String) (lim : Option Nat)
    (entry : Option String) : List CachedOp :=
  [⟨lookupCrateKey a ver, fun env c => lookupCrate env c a ver⟩,
   ⟨lookupItemKey a (stripCratePrefix a b) ver,
     fun env c => ((lookupItem env c a b ver).result, (lookupItem env c a b ver).cache)⟩,
   ⟨"devdocs:list", fun env c => devdocsListDocumentations env c⟩,
   ⟨devdocsGetKey a entry, fun env c => devdocsGetDocumentation env c a entry⟩,
   ⟨devdocsSearchKey a b, fun env c => devdocsSearchDocumentation env c a b⟩,
   ⟨npmLookupKey a ver, fun env c => npmLookupPackage env c a ver⟩,
   ⟨npmSearchKey b lim, fun env c => npmSearchPackages env c b lim⟩,
   ⟨pypiLookupKey a ver, fun env c => pypiLookupPackage env c a ver⟩,
   ⟨pypiSearchKey b lim, fun env c => pypiSearchPackages env c b lim⟩,
   ⟨goPackageKey a ver, fun env c => goLookupPackage env c a ver⟩,
   ⟨goSearchKey b lim, fun env c => goSearchPackages env c b lim⟩,
   ⟨goItemKey a b ver, fun env c => goLookupItem env c a b ver⟩]

/-- Claim C2 (amended): for every tool operation except
`DocRouter::search_crates`, a call whose cache key is present returns the
cached text exactly and leaves the cache untouched, whatever the network
would answer (so no fetch can influence the result), and a miss that
succeeds stores the normalized result under the operation's cache key —
hence a second identical call hits the cache.  `search_crates` itself
performs no caching (see its counterexample). -/
theorem cached_ops_cache_discipline (a b : String) (ver : Option String)
    (lim : Option Nat) (entry : Option String) :
    ∀ op ∈ cachedOps a b ver lim entry,
      (∀ cache v, cache.get op.key = some v →
          ∀ env, op.run env cache = (.ok v, cache))
      ∧ (∀ env cache r c', cache.get op.key = none →
          op.run env cache = (.ok r, c') → c' = cache.set op.key r) := by
  intro op hop
  simp only [cachedOps, List.mem_cons, List.not_mem_nil, or_false] at hop
  rcases hop with rfl | rfl | rfl | rfl | rfl | rfl | rfl | rfl | rfl | rfl | rfl | rfl
  · exact ⟨fun cache v h env => lookupCrate_hit env cache a ver v h,
      fun env cache r c' hm h => lookupCrate_store env cache a ver r c' hm h⟩
  · constructor
    · intro cache v h env
      show ((lookupItem env cache a b ver).result,
        (lookupItem env cache a b ver).cache) = (.ok v, cache)
      rw [lookupItem_hit env cache a b ver v h]
    · intro env cache r c' hm h
      have hres : (lookupItem env cache a b ver).result = .ok r :=
        congrArg Prod.fst h
      have hc : (lookupItem env cache a b ver).cache = c' :=
        congrArg Prod.snd h
      rw [← hc]
      exact lookupItem_store env cache a b ver r hm hres
  · exact ⟨fun cache v h env => devdocsList_hit env cache v h,
      fun env cache r c' hm h => devdocsList_store env cache r c' hm h⟩
  · exact ⟨fun cache v h env => devdocsGet_hit env cache a entry v h,
      fun env cache r c' hm h => devdocsGet_store env cache a entry r c' hm h⟩
  · exact ⟨fun cache v h env => devdocsSearch_hit env cache a b v h,
      fun env cache r c' hm h => devdocsSearch_store env cache a b r c' hm h⟩
  · exact ⟨fun cache v h env => npmLookup_hit env cache a ver v h,
      fun env cache r c' hm h => npmLookup_store env cache a ver r c' hm h⟩
  · exact ⟨fun cache v h env => npmSearch_hit env cache b lim v h,
      fun env cache r c' hm h => npmSearch_store env cache b lim r c' hm h⟩
  · exact ⟨fun cache v h env => pypiLookup_hit env cache a ver v h,
      fun env cache r c' hm h => pypiLookup_store env cache a ver r c' hm h⟩
  · exact ⟨fun cache v h env => pypiSearch_hit env cache b lim v h,
      fun env cache r c' hm h => pypiSearch_store env cache b lim r c' hm h⟩
  · exact ⟨fun cache v h env => goLookup_hit env cache a ver v h,
      fun env cache r c' hm h => goLookup_store env cache a ver r c' hm h⟩
  · exact ⟨fun cache v h env => goSearch_hit env cache b lim v h,
      fun env cache r c' hm h => goSearch_store env cache b lim r c' hm h⟩
  · exact ⟨fun cache v h env => goItem_hit env cache a b ver v h,
      fun env cache r c' hm h => goItem_store env cache a b ver r c' hm h⟩

/-- Environment of the C2 witness: every fetch fails, so any success
must have come from the cache. -/
def envC2hit : Env where
  fetch := fun _ _ => .transportError "network down"
  parseHtml := id
  parseJson := fun _ => .error "bad json"

/-- Claim C2 witness: with key `tokio:1.2.3` pre-seeded, `lookup_crate`
for `tokio` at `1.2.3` returns exactly the seeded text and leaves the
cache unchanged, although the network is down. -/
theorem cached_ops_cache_discipline_witness :
    lookupCrate envC2hit
        (Cache.empty.set "tokio:1.2.3" "Tokio 1.2.3 documentation")
        "tokio" (some "1.2.3")
      = (.ok "Tokio 1.2.3 documentation",
         Cache.empty.set "tokio:1.2.3" "Tokio 1.2.3 documentation") :=
  (cached_ops_cache_discipline "tokio" "" (some "1.2.3") none none
      ⟨lookupCrateKey "tokio" (some "1.2.3"),
        fun env c => lookupCrate env c "tokio" (some "1.2.3")⟩
      (List.mem_cons_self _ _)).1
    (Cache.empty.set "tokio:1.2.3" "Tokio 1.2.3 documentation")
    "Tokio 1.2.3 documentation" rfl envC2hit

/-- First environment of the C2 counterexample: the upstream answers
`alpha`. -/
def envC2a : Env where
  fetch := fun _ _ => .response 200 "alpha"
  parseHtml := id
  parseJson := fun _ => .error "unused"

/-- Second environment of the C2 counterexample: the upstream now
answers `beta`. -/
def envC2b : Env where
  fetch := fun _ _ => .response 200 "beta"
  parseHtml := id
  parseJson := fun _ => .error "unused"

/-- Claim C2 counterexample: `search_crates` violates the claim — a
successful call on an empty cache stores nothing (the cache stays
empty), and the repeated identical call fetches again, returning
whatever the network now says rather than the first call's text. -/
theorem search_crates_no_caching :
    (searchCrates envC2a Cache.empty "serde" none).2 = Cache.empty
    ∧ (searchCrates envC2a Cache.empty "serde" none).1 = .ok "alpha"
    ∧ (searchCrates envC2b (searchCrates envC2a Cache.empty "serde" none).2
        "serde" none).1 = .ok "beta"
    ∧ (Except.ok "beta" : Except ToolError String) ≠ .ok "alpha" :=
  ⟨rfl, rfl, rfl, by decide⟩

/-! ## Cache-key determinism and (restricted) injectivity -/

theorem sepKey_data (n v : String) (sep : String) :
    (n ++ sep ++ v).data = n.data ++ (sep.data ++ v.data) := by
  simp [String.data_append]

theorem colon_mem_sepKey (n v : String) : ':' ∈ (n ++ ":" ++ v).data := by
  rw [sepKey_data]
  exact List.mem_append_right _ (List.mem_cons_self _ _)

theorem sepKey_inj (c : Char) (sep : String) (hsep : sep.data = [c])
    (n1 v1 n2 v2 : String) (h1 : c ∉ n1.data) (h2 : c ∉ n2.data)
    (heq : n1 ++ sep ++ v1 = n2 ++ sep ++ v2) : n1 = n2 ∧ v1 = v2 := by
  have hd : n1.data ++ (c :: v1.data) = n2.data ++ (c :: v2.data) := by
    have := congrArg String.data heq
    rwa [sepKey_data, sepKey_data, hsep] at this
  have := sep_split_inj n1.data n2.data v1.data v2.data h1 h2 hd
  exact ⟨String.ext this.1, String.ext this.2⟩

theorem lookupCrateKey_inj (n1 : String) (o1 : Option String) (n2 : String)
    (o2 : Option String) (h1 : ':' ∉ n1.data) (h2 : ':' ∉ n2.data)
    (heq : lookupCrateKey n1 o1 = lookupCrateKey n2 o2) :
    n1 = n2 ∧ o1 = o2 := by
  rcases o1 with _ | v1 <;> rcases o2 with _ | v2
  · exact ⟨heq, rfl⟩
  · exfalso
    apply h1
    rw [show lookupCrateKey n1 none = n1 from rfl,
      show lookupCrateKey n2 (some v2) = n2 ++ ":" ++ v2 from rfl] at heq
    rw [heq]
    exact colon_mem_sepKey n2 v2
  · exfalso
    apply h2
    rw [show lookupCrateKey n2 none = n2 from rfl,
      show lookupCrateKey n1 (some v1) = n1 ++ ":" ++ v1 from rfl] at heq
    rw [← heq]
    exact colon_mem_sepKey n1 v1
  · have := sepKey_inj ':' ":" rfl n1 v1 n2 v2 h1 h2 heq
    exact ⟨this.1, by rw [this.2]⟩

theorem lookupItemKey_none_inj (n1 p1 n2 p2 : String)
    (h1 : ':' ∉ n1.data) (h2 : ':' ∉ n2.data)
    (heq : lookupItemKey n1 p1 none = lookupItemKey n2 p2 none) :
    n1 = n2 ∧ p1 = p2 :=
  sepKey_inj ':' ":" rfl n1 p1 n2 p2 h1 h2 heq

theorem lookupItemKey_some_inj (n1 v1 p1 n2 v2 p2 : String)
    (hn1 : ':' ∉ n1.data) (hn2 : ':' ∉ n2.data)
    (hv1 : ':' ∉ v1.data) (hv2 : ':' ∉ v2.data)
    (heq : lookupItemKey n1 p1 (some v1) = lookupItemKey n2 p2 (some v2)) :
    n1 = n2 ∧ v1 = v2 ∧ p1 = p2 := by
  have heq2 : n1 ++ ":" ++ (v1 ++ ":" ++ p1) = n2 ++ ":" ++ (v2 ++ ":" ++ p2) := by
    apply String.ext
    have := congrArg String.data heq
    rw [show lookupItemKey n1 p1 (some v1) = n1 ++ ":" ++ v1 ++ ":" ++ p1 from rfl,
      show lookupItemKey n2 p2 (some v2) = n2 ++ ":" ++ v2 ++ ":" ++ p2 from rfl] at this
    simp only [String.data_append] at this ⊢
    simpa [List.append_assoc] using this
  have hfst := sepKey_inj ':' ":" rfl n1 (v1 ++ ":" ++ p1) n2 (v2 ++ ":" ++ p2)
    hn1 hn2 heq2
  have hsnd := sepKey_inj ':' ":" rfl v1 p1 v2 p2 hv1 hv2 hfst.2
  exact ⟨hfst.1, hsnd.1, hsnd.2⟩

theorem goPackageKey_inj (n1 : String) (o1 : Option String) (n2 : String)
    (o2 : Option String) (h1 : '@' ∉ n1.data) (h2 : '@' ∉ n2.data)
    (heq : goPackageKey n1 o1 = goPackageKey n2 o2) :
    n1 = n2 ∧ o1 = o2 := by
  have hdata := congrArg String.data heq
  rcases o1 with _ | v1 <;> rcases o2 with _ | v2
  · refine ⟨String.ext ?_, rfl⟩
    rw [show goPackageKey n1 none = "go:package:" ++ n1 from rfl,
      show goPackageKey n2 none = "go:package:" ++ n2 from rfl] at hdata
    simp only [String.data_append] at hdata
    exact List.append_cancel_left hdata
  · exfalso
    apply h1
    rw [show goPackageKey n1 none = "go:package:" ++ n1 from rfl,
      show goPackageKey n2 (some v2) = "go:package:" ++ n2 ++ "@" ++ v2 from rfl]
      at hdata
    simp only [String.data_append, List.append_assoc] at hdata
    have hn := List.append_cancel_left hdata
    rw [hn]
    simp
  · exfalso
    apply h2
    rw [show goPackageKey n2 none = "go:package:" ++ n2 from rfl,
      show goPackageKey n1 (some v1) = "go:package:" ++ n1 ++ "@" ++ v1 from rfl]
      at hdata
    simp only [String.data_append, List.append_assoc] at hdata
    have hn := List.append_cancel_left hdata
    rw [← hn]
    simp
  · rw [show goPackageKey n1 (some v1) = "go:package:" ++ n1 ++ "@" ++ v1 from rfl,
      show goPackageKey n2 (some v2) = "go:package:" ++ n2 ++ "@" ++ v2 from rfl]
      at hdata
    simp only [String.data_append, List.append_assoc] at hdata
    have hrest := List.append_cancel_left hdata
    simp only [← List.append_assoc] at hrest
    have := sep_split_inj n1.data n2.data v1.data v2.data h1 h2 (by
      simpa [List.append_assoc] using hrest)
    exact ⟨String.ext this.1, by rw [String.ext this.2]⟩

/-- Claim C3 (amended): key construction is deterministic (each key is a
pure function of the request), and it is injective between requests of
the same operation and the same version arity whose identifier and
version components avoid the separator character (`:` for the docs.rs
keys, `@` for the Go package key).  It is NOT injective across
operations or across version arities: see the collision counterexample. -/
theorem cache_key_determinism_and_restricted_injectivity :
    (∀ n1 o1 n2 o2, ':' ∉ String.data n1 → ':' ∉ String.data n2 →
        lookupCrateKey n1 o1 = lookupCrateKey n2 o2 → n1 = n2 ∧ o1 = o2)
    ∧ (∀ n1 p1 n2 p2, ':' ∉ String.data n1 → ':' ∉ String.data n2 →
        lookupItemKey n1 p1 none = lookupItemKey n2 p2 none →
        n1 = n2 ∧ p1 = p2)
    ∧ (∀ n1 v1 p1 n2 v2 p2, ':' ∉ String.data n1 → ':' ∉ String.data n2 →
        ':' ∉ String.data v1 → ':' ∉ String.data v2 →
        lookupItemKey n1 p1 (some v1) = lookupItemKey n2 p2 (some v2) →
        n1 = n2 ∧ v1 = v2 ∧ p1 = p2)
    ∧ (∀ n1 o1 n2 o2, '@' ∉ String.data n1 → '@' ∉ String.data n2 →
        goPackageKey n1 o1 = goPackageKey n2 o2 → n1 = n2 ∧ o1 = o2) :=
  ⟨lookupCrateKey_inj, lookupItemKey_none_inj, lookupItemKey_some_inj,
   goPackageKey_inj⟩

/-- Claim C3 witness: the versioned docs.rs item key at concrete
separator-free components determines those components. -/
theorem cache_key_injectivity_witness :
    ("tokio" : String) = "tokio" ∧ ("1.2.3" : String) = "1.2.3"
      ∧ ("sync::Mutex" : String) = "sync::Mutex" :=
  cache_key_determinism_and_restricted_injectivity.2.2.1
    "tokio" "1.2.3" "sync::Mutex" "tokio" "1.2.3" "sync::Mutex"
    (by decide) (by decide) (by decide) (by decide) rfl

/-- Environment of the C3 counterexample: the first probe succeeds. -/
def envC3ok : Env where
  fetch := fun _ _ => .response 200 "ITEMBODY"
  parseHtml := fun s => "MD:" ++ s
  parseJson := fun _ => .error "unused"

/-- Second environment of the C3 counterexample: the network is dead, so
any success can only come from the cache. -/
def envC3fail : Env where
  fetch := fun _ _ => .transportError "down"
  parseHtml := id
  parseJson := fun _ => .error "unused"

/-- Claim C3 counterexample: two different requests collide.
`lookup_crate("tokio", version "1.2.3")` and
`lookup_item("tokio", item "1.2.3", no version)` build the byte-identical
key `"tokio:1.2.3"`; the two operations share `DocRouter.cache`, so after
the item lookup stores its markdown, the versioned crate lookup returns
the item documentation from the cache even though every fetch fails. -/
theorem cache_key_collision :
    lookupCrateKey "tokio" (some "1.2.3")
        = lookupItemKey "tokio" (stripCratePrefix "tokio" "1.2.3") none
    ∧ lookupCrateKey "tokio" (some "1.2.3") = "tokio:1.2.3"
    ∧ (lookupCrate envC3fail
         ((lookupItem envC3ok Cache.empty "tokio" "1.2.3" none).cache)
         "tokio" (some "1.2.3")).1
        = .ok ("MD:" ++ "ITEMBODY") :=
  ⟨rfl, rfl, rfl⟩

/-! ## Search-result rendering -/

/-- A rendered piece that is a numbered search entry: it opens with the
`## ` heading the renderers emit for every entry. -/
def isEntryLine (e : String) : Bool :=
  match e.data with
  | '#' :: '#' :: ' ' :: _ => true
  | _ => false

theorem charsContains_extend (needle a b : List Char)
    (h : charsContains needle a = true) :
    charsContains needle (a ++ b) = true := by
  induction a with
  | nil =>
    have hn : needle = [] := by
      simpa [charsContains, List.isEmpty_iff] using h
    subst hn
    cases b with
    | nil => rfl
    | cons c t => simp [charsContains, List.isPrefixOf]
  | cons c as ih =>
    simp only [charsContains, Bool.or_eq_true] at h
    show charsContains needle (c :: (as ++ b)) = true
    simp only [charsContains, Bool.or_eq_true]
    rcases h with h | h
    · left
      rw [List.isPrefixOf_iff_prefix] at h ⊢
      exact h.trans (by rw [← List.cons_append]; exact List.prefix_append _ _)
    · right
      exact ih h

theorem strContains_append_right (hay extra needle : String)
    (h : strContains hay needle = true) :
    strContains (hay ++ extra) needle = true := by
  simp only [strContains, String.data_append]
  exact charsContains_extend needle.data hay.data extra.data h

theorem strContains_self_suffix (pre needle : String) :
    strContains (pre ++ needle) needle = true := by
  simp only [strContains, String.data_append]
  simpa using charsContains_mid pre.data needle.data []

theorem npmEntryText_marks (i : Nat) (pkg info : Json)
    (hinfo : pkg.get "package" = some info) :
    strContains (npmEntryText i pkg) ("## " ++ toString (i + 1) ++ ". ") = true
    ∧ strContains (npmEntryText i pkg) ((info.getStr "name").getD "Unknown") = true
    ∧ strContains (npmEntryText i pkg)
        ((info.getStr "version").getD "Unknown") = true := by
  simp only [npmEntryText, hinfo]
  refine ⟨?_, ?_, ?_⟩
  · exact strContains_append_right _ _ _ (strContains_append_right _ _ _
      (strContains_append_right _ _ _ (strContains_append_right _ _ _
      (strContains_append_right _ _ _ (strContains_append_right _ _ _
      (strContains_left _ _))))))
  · exact strContains_append_right _ _ _ (strContains_append_right _ _ _
      (strContains_append_right _ _ _ (strContains_append_right _ _ _
      (strContains_append_right _ _ _ (strContains_append_right _ _ _
      (strContains_self_suffix _ _))))))
  · exact strContains_append_right _ _ _ (strContains_append_right _ _ _
      (strContains_append_right _ _ _ (strContains_append_right _ _ _
      (strContains_self_suffix _ _))))

theorem pypiEntryText_marks (i : Nat) (pkg : Json) :
    strContains (pypiEntryText i pkg) ("## " ++ toString (i + 1) ++ ". ") = true
    ∧ strContains (pypiEntryText i pkg) ((pkg.getStr "name").getD "Unknown") = true
    ∧ strContains (pypiEntryText i pkg)
        ((pkg.getStr "version").getD "Unknown") = true := by
  simp only [pypiEntryText]
  refine ⟨?_, ?_, ?_⟩
  · exact strContains_append_right _ _ _ (strContains_append_right _ _ _
      (strContains_append_right _ _ _ (strContains_append_right _ _ _
      (strContains_append_right _ _ _ (strContains_append_right _ _ _
      (strContains_append_right _ _ _ (strContains_append_right _ _ _
      (strContains_left _ _))))))))
  · exact strContains_append_right _ _ _ (strContains_append_right _ _ _
      (strContains_append_right _ _ _ (strContains_append_right _ _ _
      (strContains_append_right _ _ _ (strContains_append_right _ _ _
      (strContains_append_right _ _ _ (strContains_append_right _ _ _
      (strContains_self_suffix _ _))))))))
  · exact strContains_append_right _ _ _ (strContains_append_right _ _ _
      (strContains_append_right _ _ _ (strContains_append_right _ _ _
      (strContains_append_right _ _ _ (strContains_append_right _ _ _
      (strContains_self_suffix _ _))))))

theorem npmEntryText_isEntry (i : Nat) (pkg info : Json)
    (hinfo : pkg.get "package" = some info) :
    isEntryLine (npmEntryText i pkg) = true := by
  simp only [npmEntryText, hinfo]
  rfl

theorem pypiEntryText_isEntry (i : Nat) (pkg : Json) :
    isEntryLine (pypiEntryText i pkg) = true := rfl

theorem npmEntries_count (objects : List Json) :
    ∀ i, (∀ pkg ∈ objects, (pkg.get "package").isSome = true) →
      (entriesFrom npmEntryText i objects).countP isEntryLine
        = objects.length := by
  induction objects with
  | nil => intro i _; simp [entriesFrom]
  | cons pkg rest ih =>
    intro i hall
    obtain ⟨info, hinfo⟩ :=
      Option.isSome_iff_exists.mp (hall pkg (List.mem_cons_self _ _))
    simp only [entriesFrom, List.countP_cons, List.length_cons]
    rw [ih (i + 1) (fun x hx => hall x (List.mem_cons_of_mem _ hx))]
    simp [npmEntryText_isEntry i pkg info hinfo]

theorem pypiEntries_count_aux (l : List Json) :
    ∀ i, (entriesFrom pypiEntryText i l).countP isEntryLine = l.length := by
  induction l with
  | nil => intro i; simp [entriesFrom]
  | cons pkg rest ih =>
    intro i
    simp [entriesFrom, List.countP_cons, ih (i + 1), pypiEntryText_isEntry]

theorem entriesFrom_getD (f : Nat → Json → String) :
    ∀ (l : List Json) (i j : Nat), j < l.length →
      (entriesFrom f i l).getD j "" = f (i + j) (l.getD j Json.null) := by
  intro l
  induction l with
  | nil => intro i j hj; simp at hj
  | cons pkg rest ih =>
    intro i j hj
    cases j with
    | zero => simp [entriesFrom]
    | succ j2 =>
      simp only [entriesFrom, List.getD_cons_succ]
      rw [ih (i + 1) j2 (by simpa using hj)]
      congr 1
      omega

/-- Claim C8 (amended): each search renderer emits its entries from the
parsed payload in upstream order, numbered from 1 by upstream position,
and every entry carries the result's name and version (the placeholder
`Unknown` standing in for an absent field).  The entry COUNT differs
from the claim: npm renders one entry per result object that carries a
`package` record (an object without one renders nothing), and PyPI
renders only the first `limit` results (`enumerate().take(limit)`), so
the counts are N-with-package and `min limit N` respectively, not always
N. -/
theorem search_render_entries (query : String) (objects results : List Json)
    (limit : Nat) :
    (npmSearchMarkdown query (Json.obj [("objects", Json.arr objects)])
        = "# NPM Search Results for '" ++ query ++ "'\n\n"
          ++ String.join (entriesFrom npmEntryText 0 objects))
    ∧ ((∀ pkg ∈ objects, (pkg.get "package").isSome = true) →
        (entriesFrom npmEntryText 0 objects).countP isEntryLine
          = objects.length)
    ∧ (∀ j, j < objects.length →
        (entriesFrom npmEntryText 0 objects).getD j ""
          = npmEntryText j (objects.getD j Json.null))
    ∧ (∀ i pkg info, pkg.get "package" = some info →
        strContains (npmEntryText i pkg) ("## " ++ toString (i + 1) ++ ". ") = true
        ∧ strContains (npmEntryText i pkg)
            ((info.getStr "name").getD "Unknown") = true
        ∧ strContains (npmEntryText i pkg)
            ((info.getStr "version").getD "Unknown") = true)
    ∧ (pypiSearchMarkdown query limit (Json.obj [("results", Json.arr results)])
        = "# PyPI Search Results for '" ++ query ++ "'\n\n"
          ++ String.join (entriesFrom pypiEntryText 0 (results.take limit)))
    ∧ (entriesFrom pypiEntryText 0 (results.take limit)).countP isEntryLine
        = min limit results.length
    ∧ (∀ j, j < (results.take limit).length →
        (entriesFrom pypiEntryText 0 (results.take limit)).getD j ""
          = pypiEntryText j ((results.take limit).getD j Json.null))
    ∧ (∀ i pkg,
        strContains (pypiEntryText i pkg) ("## " ++ toString (i + 1) ++ ". ") = true
        ∧ strContains (pypiEntryText i pkg)
            ((pkg.getStr "name").getD "Unknown") = true
        ∧ strContains (pypiEntryText i pkg)
            ((pkg.getStr "version").getD "Unknown") = true) := by
  refine ⟨rfl, npmEntries_count objects 0, ?_, npmEntryText_marks, rfl, ?_, ?_,
    pypiEntryText_marks⟩
  · intro j hj
    rw [entriesFrom_getD npmEntryText objects 0 j hj]
    simp
  · rw [pypiEntries_count_aux (results.take limit) 0, List.length_take]
  · intro j hj
    rw [entriesFrom_getD pypiEntryText (results.take limit) 0 j hj]
    simp

/-- A well-formed npm search result object. -/
def npmGoodObj : Json :=
  Json.obj [("package", Json.obj
    [("name", Json.str "lodash"), ("version", Json.str "4.17.21")])]

/-- Claim C8 witness: one well-formed npm result object renders exactly
one numbered entry. -/
theorem search_render_entries_witness :
    (entriesFrom npmEntryText 0 [npmGoodObj]).countP isEntryLine
      = ([npmGoodObj] : List Json).length :=
  (search_render_entries "q" [npmGoodObj] [] 0).2.1 (by decide)

/-- First result object of the C8 counterexample payload. -/
def pypiResultA : Json :=
  Json.obj [("name", Json.str "alpha"), ("version", Json.str "1.0"),
    ("description", Json.str "first")]

/-- Second result object of the C8 counterexample payload. -/
def pypiResultB : Json :=
  Json.obj [("name", Json.str "beta"), ("version", Json.str "2.0"),
    ("description", Json.str "second")]

/-- An npm search result object without a `package` record. -/
def npmBareObj : Json := Json.obj [("searchScore", Json.num 1)]

/-- Claim C8 counterexample: the renderers do not always emit exactly N
numbered entries for N result objects — PyPI with two well-formed
results and limit 1 renders a single entry, and npm with one result
object lacking a `package` record renders none. -/
theorem search_render_exact_count_fails :
    (entriesFrom pypiEntryText 0 (([pypiResultA, pypiResultB] : List Json).take 1)).countP
        isEntryLine = 1
    ∧ ([pypiResultA, pypiResultB] : List Json).length = 2
    ∧ (1 : Nat) ≠ 2
    ∧ (entriesFrom npmEntryText 0 [npmBareObj]).countP isEntryLine = 0
    ∧ ([npmBareObj] : List Json).length = 1
    ∧ (0 : Nat) ≠ 1 :=
  ⟨rfl, rfl, by decide, rfl, rfl, by decide⟩

end DevDocsMcp
